import Mathlib

/-!
# Verification development for parts of OpenFOAM-dev

Shallow embedding of

* `correctFixedFluxBCs` (applications/modules/multiphaseEuler/interfacialModels),
* the momentum-transfer phase system interface
  (`MomentumTransferPhaseSystem.H`), whose member-function bodies live in
  `MomentumTransferPhaseSystem.C` and are modelled from the specification,
* the member functions `calc`, `calcDevolatilisation`, `calcSurfaceReactions`,
  `updateMassFractions`, `CpEff`, `hsEff` and `LEff` of `ReactingMultiphaseParcel`
  (src/lagrangian/parcel/parcels/Templates/ReactingMultiphaseParcel),
* the unimplemented mesh-flux corrections of the stationary mesh stitcher
  (src/finiteVolume/fvMesh/fvMeshStitchers/stationary),
* `HerschelBulkley::nu` (src/MomentumTransportModels).

Scalars (`Foam::scalar`) are embedded as rationals, labels (`Foam::label`) as
integers or naturals, fields (`Field<Type>`) as lists or, where every field
lives on the same cells, as functions on the cell indices. Arithmetic on scalars
is exact unless a definition takes the rounding as a parameter; `roundToScalar`
is the rounding of the double-precision build.
-/

namespace Foam

/-! ## Geometric fields and phases -/

/-- A patch field (`GeoMesh::PatchField<Type>`) of a geometric field: the
answer of `isA<fixedValueFvsPatchScalarField>` on it, and its face values. -/
structure PatchField (α : Type) where
  isAfixedValue : Bool
  values : List α
deriving DecidableEq, Repr

/-- Modelled from the spec: the patch-field assignment `operator=(const Type&)`
used by `fieldBf[patchi] = Zero` is declared outside the given sources; following
"zero the corresponding entry of a correction field on that patch" it sets every
face value of the patch to the given value and keeps the patch type and size. -/
def PatchField.assign {α : Type} (p : PatchField α) (t : α) : PatchField α :=
  { p with values := List.replicate p.values.length t }

/-- A `GeometricField<Type, GeoMesh>`: internal values and one patch field per
boundary patch (`boundaryField()`). -/
structure GeometricField (α : Type) where
  internal : List α
  boundaryField : List (PatchField α)
deriving DecidableEq, Repr

/-- The part of `phaseModel` read by `correctFixedFluxBCs`: the `stationary()`
flag and the volumetric flux `phi()`. -/
structure phaseModel where
  stationary : Bool
  phi : GeometricField ℚ

/-- A `phaseInterface`: access to `phase1()` and `phase2()`. -/
structure phaseInterface where
  phase1 : phaseModel
  phase2 : phaseModel

/-- The test
`!phase.stationary() && isA<fixedValueFvsPatchScalarField>(phase.phi()().boundaryField()[patchi])`.
All fields of a case share one boundary mesh, so `patchi` indexes an existing
patch of `phi`; the lookup is total and answers `false` for a missing patch. -/
def phaseModel.fixedFlux (phase : phaseModel) (patchi : Nat) : Bool :=
  !phase.stationary &&
    (match phase.phi.boundaryField[patchi]? with
     | some pf => pf.isAfixedValue
     | none => false)

/-- The condition of the `if` in the patch loop of `correctFixedFluxBCs`. -/
def phaseInterface.fixedFlux (interface : phaseInterface) (patchi : Nat) : Bool :=
  interface.phase1.fixedFlux patchi || interface.phase2.fixedFlux patchi

/-- The loop `forAll(fieldBf, patchi)` of `correctFixedFluxBCs`, from patch
index `patchi` on over the remaining patches. -/
def correctFixedFluxBCsLoop {α : Type} [Zero α] (interface : phaseInterface) :
    Nat → List (PatchField α) → List (PatchField α)
  | _, [] => []
  | patchi, pf :: rest =>
      (if interface.fixedFlux patchi then pf.assign 0 else pf)
        :: correctFixedFluxBCsLoop interface (patchi + 1) rest

/-- The function `correctFixedFluxBCs(interface, tfield)`. -/
def correctFixedFluxBCs {α : Type} [Zero α] (interface : phaseInterface)
    (tfield : GeometricField α) : GeometricField α :=
  { tfield with
    boundaryField := correctFixedFluxBCsLoop interface 0 tfield.boundaryField }

/-- A flux field with a fixed-value patch 0 and a calculated patch 1. -/
def examplePhiFixed : GeometricField ℚ :=
  ⟨[0, 0], [⟨true, [1, 1]⟩, ⟨false, [2]⟩]⟩

/-- A flux field without fixed-value patches. -/
def examplePhiFree : GeometricField ℚ :=
  ⟨[0, 0], [⟨false, [1, 1]⟩, ⟨false, [2]⟩]⟩

/-- An interface whose phase1 moves and has a fixed flux on patch 0 and whose
phase2 is stationary. -/
def exampleInterfaceMoving : phaseInterface :=
  ⟨⟨false, examplePhiFixed⟩, ⟨true, examplePhiFree⟩⟩

/-- An interface whose phase1 is stationary with a fixed flux on patch 0 and
whose phase2 moves without any fixed flux. -/
def exampleInterfaceStationary : phaseInterface :=
  ⟨⟨true, examplePhiFixed⟩, ⟨false, examplePhiFree⟩⟩

/-- A correction field with values 5, 7 on patch 0 and 3 on patch 1. -/
def exampleCorrection : GeometricField ℤ :=
  ⟨[1, 2], [⟨false, [5, 7]⟩, ⟨false, [3]⟩]⟩

/-! ## Phase-pair keys, per-pair tables and the drag-coefficient cache

`MomentumTransferPhaseSystem.H` declares the tables and member functions; the
key class, the table class and the member-function bodies are outside the given
sources and are modelled from the specification. -/

/-- A `word`: the name of a phase. -/
abbrev word := String

/-- Modelled from the spec: the class `phaseInterfaceKey` (only named in the
table typedefs) is "an unordered pair of two phase identities"; a key built from
the phases (A,B) stores the two phase names. -/
structure phaseInterfaceKey where
  first : word
  second : word
deriving DecidableEq, Repr

/-- Modelled from the spec: equality of keys, missing with the class
`phaseInterfaceKey`: "equality and hashing are symmetric", two keys are equal
when they hold the same two names in either order. -/
def phaseInterfaceKey.equal (a b : phaseInterfaceKey) : Bool :=
  (a.first == b.first && a.second == b.second) ||
    (a.first == b.second && a.second == b.first)

/-- Modelled from the spec: the hash functor `phaseInterfaceKey::hash`, missing
with the class; "hashing is symmetric", the hashes of the two names are combined
by addition. The hash of a word is a parameter. -/
def phaseInterfaceKey.hash (wordHash : word → Nat) (k : phaseInterfaceKey) : Nat :=
  wordHash k.first + wordHash k.second

/-- Modelled from the spec: the table class
`HashPtrTable<T, phaseInterfaceKey, phaseInterfaceKey::hash>` of the typedefs
`KdTable`, `dragModelTable`, ... ("symmetric key and hash lookup"): a list of
buckets, each a chain of key-value entries. -/
structure HashPtrTable (T : Type) where
  table : List (List (phaseInterfaceKey × T))

/-- Modelled from the spec: table lookup, missing with the table class: the
chain of the bucket selected by the hash of the key is searched for an entry
with an equal key. -/
def HashPtrTable.find {T : Type} (wordHash : word → Nat) (t : HashPtrTable T)
    (k : phaseInterfaceKey) : Option T :=
  match t.table[k.hash wordHash % t.table.length]? with
  | none => none
  | some chain => (chain.find? (fun e => e.1.equal k)).map Prod.snd

/-- Modelled from the spec: table insertion, missing with the table class: the
entry replaces an entry with an equal key in the bucket selected by the hash;
a table without buckets gets its first bucket. -/
def HashPtrTable.insert {T : Type} (wordHash : word → Nat) (t : HashPtrTable T)
    (k : phaseInterfaceKey) (v : T) : HashPtrTable T :=
  match t.table with
  | [] => ⟨[[(k, v)]]⟩
  | b :: bs =>
    ⟨(b :: bs).set (k.hash wordHash % (b :: bs).length)
      ((k, v) :: (((b :: bs).getD (k.hash wordHash % (b :: bs).length) []).filter
        (fun e => !e.1.equal k)))⟩

/-- Modelled from the spec: the explicit clear of a table, missing with the
table class: every bucket is emptied. -/
def HashPtrTable.clear {T : Type} (t : HashPtrTable T) : HashPtrTable T :=
  ⟨t.table.map (fun _ => [])⟩

/-- Modelled from the spec: the class `blendedDragModel` is only forward
declared; its "one method: evaluate coefficient field given current phase
states" yields, for the phase states of the current pass, the field `K`. -/
structure blendedDragModel (m : Nat) where
  K : Fin m → ℚ

/-- The mutable member `Kds_` of `MomentumTransferPhaseSystem` together with a
call counter on the underlying drag models. -/
structure KdCache (m : Nat) where
  Kds_ : HashPtrTable (Fin m → ℚ)
  evaluations : Nat

/-- Modelled from the spec: the body of the get-or-compute access to `Kds_` is
in `MomentumTransferPhaseSystem.C`, not given. "First call for a key computes
and stores the field; subsequent calls return the cached field until an
explicit clear." A pair without drag model has no coefficient. -/
def KdCache.getOrCompute {m : Nat} (wordHash : word → Nat)
    (dragModels_ : HashPtrTable (blendedDragModel m)) (k : phaseInterfaceKey)
    (c : KdCache m) : Option (Fin m → ℚ) × KdCache m :=
  match c.Kds_.find wordHash k with
  | some Kd => (some Kd, c)
  | none =>
    match dragModels_.find wordHash k with
    | none => (none, c)
    | some model =>
      (some model.K,
        { Kds_ := c.Kds_.insert wordHash k model.K, evaluations := c.evaluations + 1 })

/-- Modelled from the spec: the explicit clear of the cache before a new
evaluation pass. -/
def KdCache.clear {m : Nat} (c : KdCache m) : KdCache m :=
  { c with Kds_ := c.Kds_.clear }

/-! ## Momentum transfer: the implicit part of the drag -/

/-- Modelled from the spec: the sign with which a coefficient is added to the
diagonal of an operator. The spec says "with appropriate sign" and no more, so
the sign is not fixed here. -/
inductive coefficientSign where
  | plus
  | minus
deriving DecidableEq, Repr

/-- The coefficient `K` taken with the sign `s`. -/
def coefficientSign.apply (s : coefficientSign) (K : ℚ) : ℚ :=
  match s with
  | .plus => K
  | .minus => -K

/-- Modelled from the spec: the coefficient of a pair read from a per-pair
table of fields at a cell; "only phase pairs with an active ... model
contribute ...; all others are exactly zero". -/
def pairCoeff {n m : Nat} (wordHash : word → Nat) (phaseNames : Fin n → word)
    (t : HashPtrTable (Fin m → ℚ)) (i j : Fin n) (ci : Fin m) : ℚ :=
  match t.find wordHash ⟨phaseNames i, phaseNames j⟩ with
  | some K => K ci
  | none => 0

/-- Modelled from the spec: the assembly of the block coefficient matrix (body
in `MomentumTransferPhaseSystem.C`, not given): "a dense N×N matrix of per-cell
(or per-face) scalar coefficients where N = number of phases; diagonal =
central+drag+virtual-mass coefficient for that phase, off-diagonal = negative
drag coupling between phase pairs"; the central coefficient is floored by the
small positive constant `floor` ("floored denominators"). `As` are the central
coefficients, `Kds_` the cached drag coefficients and `Vms_` the virtual-mass
coefficients of the pairs. -/
def assembleADVs {n m : Nat} (wordHash : word → Nat) (floor : ℚ) (phaseNames : Fin n → word)
    (As : Fin n → Fin m → ℚ) (Kds_ Vms_ : HashPtrTable (Fin m → ℚ)) :
    Fin n → Fin n → Fin m → ℚ :=
  fun i j ci =>
    if i = j then
      max (As i ci) floor
        + ∑ l ∈ Finset.univ.erase i,
            (pairCoeff wordHash phaseNames Kds_ i l ci + pairCoeff wordHash phaseNames Vms_ i l ci)
    else
      - pairCoeff wordHash phaseNames Kds_ i j ci

/-- Modelled from the spec: one pivot of the in-place Gauss-Jordan
elimination on pivot row and column `k`: the pivot row is divided by the pivot
and the pivot column is eliminated from every other row, the pivot column
itself receiving the column of the inverse. The pivot is the denominator; for
matrices assembled from non-negative pair coefficients it is bounded below by
the floor of the central coefficients (`assembleADVs_pivot_floor`). -/
def gaussJordanStep {n : Nat} (k : Fin n) (a : Matrix (Fin n) (Fin n) ℚ) :
    Matrix (Fin n) (Fin n) ℚ :=
  let p := a k k
  let rowk : Fin n → ℚ := fun j => (if j = k then 1 else a k j) / p
  fun i j => if i = k then rowk j else (if j = k then 0 else a i j) - a i k * rowk j

/-- Modelled from the spec: the first `k` pivots, in the order 0, 1, ... -/
def gaussJordanLoop {n : Nat} (a : Matrix (Fin n) (Fin n) ℚ) : Nat → Matrix (Fin n) (Fin n) ℚ
  | 0 => a
  | k + 1 =>
    if h : k < n then gaussJordanStep ⟨k, h⟩ (gaussJordanLoop a k) else gaussJordanLoop a k

/-- Modelled from the spec: "invert in place using direct (Gauss-Jordan ...)
elimination": all `n` pivots. -/
def gaussJordan {n : Nat} (a : Matrix (Fin n) (Fin n) ℚ) : Matrix (Fin n) (Fin n) ℚ :=
  gaussJordanLoop a n

/-- The N×N matrix of the coefficients of one cell (or face) `ci`. -/
def cellMatrix {n m : Nat} (ADVs : Fin n → Fin n → Fin m → ℚ) (ci : Fin m) :
    Matrix (Fin n) (Fin n) ℚ :=
  fun i j => ADVs i j ci

/-- Modelled from the spec: the in-place `invADVs(ADVs)` (declared in
`MomentumTransferPhaseSystem.H`, body not given): the N×N matrix of fields is
replaced, cell by cell (face by face), by the inverse of the matrix of that
cell. -/
def invADVs {n m : Nat} (ADVs : Fin n → Fin n → Fin m → ℚ) : Fin n → Fin n → Fin m → ℚ :=
  fun i j ci => gaussJordan (cellMatrix ADVs ci) i j

/-- The part of the work matrix that still holds the reduced coefficient
matrix after `k` pivots: the columns below `k` are unit columns already. -/
def reducedPart {n : Nat} (k : Nat) (b : Matrix (Fin n) (Fin n) ℚ) :
    Matrix (Fin n) (Fin n) ℚ :=
  fun i j => if j.val < k then (if i = j then 1 else 0) else b i j

/-- The part of the work matrix that holds the accumulated row operations
after `k` pivots. -/
def inversePart {n : Nat} (k : Nat) (b : Matrix (Fin n) (Fin n) ℚ) :
    Matrix (Fin n) (Fin n) ℚ :=
  fun i j => if j.val < k then b i j else (if i = j then 1 else 0)

/-- The row operation of one pivot on row `kk` with pivot `p` and pivot column
`col`, applied to a full matrix. -/
def pivotRows {n : Nat} (kk : Fin n) (p : ℚ) (col : Fin n → ℚ)
    (x : Matrix (Fin n) (Fin n) ℚ) : Matrix (Fin n) (Fin n) ℚ :=
  fun i j => if i = kk then x kk j / p else x i j - col i / p * x kk j

/-- Strict row diagonal dominance, with margin `μ`, of the rows and columns
from `k` on. -/
def dominantFrom {n : Nat} (μ : ℚ) (k : Nat) (b : Matrix (Fin n) (Fin n) ℚ) : Prop :=
  ∀ i : Fin n, k ≤ i.val →
    μ + ∑ j ∈ Finset.univ.filter (fun j : Fin n => k ≤ j.val ∧ j ≠ i), |b i j| < |b i i|

/-- Names of the phases of a two-phase example. -/
def examplePhaseNames : Fin 2 → word :=
  fun i => if i = 0 then "gas" else "liquid"

/-- A word hash for the examples. -/
def exampleWordHash : word → Nat :=
  fun w => w.length

/-- Cached drag coefficients of the example: 2 for the pair gas-liquid in the
single cell. -/
def exampleKds : HashPtrTable (Fin 1 → ℚ) :=
  ⟨[[(⟨"gas", "liquid"⟩, fun _ => 2)]]⟩

/-- No virtual-mass coefficients in the example. -/
def exampleVms : HashPtrTable (Fin 1 → ℚ) :=
  ⟨[[]]⟩

/-- Central coefficients of the example: 1 for gas, 0 for liquid. -/
def exampleAs : Fin 2 → Fin 1 → ℚ :=
  fun i _ => if i = 0 then 1 else 0

/-! ## Reacting multiphase parcel: devolatilisation -/

/-- Functions and constants used by `ReactingMultiphaseParcel.C` whose
definitions are outside the given sources and have no exact rational
counterpart (`pow`, `sqrt`, `cbrt`, the constants `small` and `RR`, and the
parcel member function `areaS`); they are parameters of the embedding. -/
structure externalFunctions where
  pow : ℚ → ℚ → ℚ
  sqrt : ℚ → ℚ
  cbrt : ℚ → ℚ
  small : ℚ
  RR : ℚ
  areaS : ℚ → ℚ

/-- The function `sqr`. -/
def sqr (x : ℚ) : ℚ := x * x

/-- The carrier-phase values of the tracking data read by the parcel:
`td.pc()`, `td.rhoc()`, `td.Tc()`. -/
structure trackingData where
  pc : ℚ
  rhoc : ℚ
  Tc : ℚ

/-- The data members of a reacting multiphase parcel that
`ReactingMultiphaseParcel.C` reads or writes. -/
structure ReactingMultiphaseParcel where
  nParticle_ : ℚ
  d_ : ℚ
  U_ : ℚ × ℚ × ℚ
  T_ : ℚ
  rho_ : ℚ
  Cp_ : ℚ
  Y_ : List ℚ
  mass0_ : ℚ
  YGas_ : List ℚ
  YLiquid_ : List ℚ
  YSolid_ : List ℚ
  canCombust_ : ℤ
  cell : Nat

/-- The carrier thermo `composition.carrier()`: `Cpi(id, p, T)` and
`WiValue(id)`. -/
structure carrierThermo where
  Cpi : Nat → ℚ → ℚ → ℚ
  WiValue : Nat → ℚ

/-- The composition model `cloud.composition()`. -/
structure CompositionModel where
  idGas : Nat
  localToCarrierId : Nat → Nat → Nat
  carrier : carrierThermo

/-- The constant properties `cloud.constProps()` read by
`calcDevolatilisation`. `TDevol` and `LDevol` are demand-driven entries: reading
one looks it up in the cloud dictionary on first use and is a fatal error
when the entry is missing, so each is a value or an error. -/
structure constantProperties where
  TDevol : Except String ℚ
  LDevol : Except String ℚ

/-- The devolatilisation model `cloud.devolatilisation()`:
`isNoDevolatilisation` is the answer of `isType<NoDevolatilisation<...>>` on it,
`calculate` its member function of that name, which receives the parcel, the
tracking data, `dt, mass0, mass, T, YGasEff, YLiquidEff, YSolidEff` and the
in-out arguments `canCombust` and `dMassDV` and returns the new values of the
latter two. -/
structure DevolatilisationModel where
  isNoDevolatilisation : Bool
  calculate : ReactingMultiphaseParcel → trackingData → ℚ → ℚ → ℚ → ℚ →
    List ℚ → List ℚ → List ℚ → ℤ → List ℚ → Except String (ℤ × List ℚ)

/-- The parts of the cloud used by `calcDevolatilisation`;
`BirdCorrection` is `cloud.heatTransfer().BirdCorrection()`. -/
structure ReactingMultiphaseCloud where
  devolatilisation : DevolatilisationModel
  constProps : constantProperties
  composition : CompositionModel
  BirdCorrection : Bool

/-- The in-out arguments of `calcDevolatilisation`, together with the mass
accumulated in the cloud's devolatilisation model by
`addToDevolatilisationMass`. -/
structure devolatilisationArgs where
  canCombust : ℤ
  dMassDV : List ℚ
  Sh : ℚ
  N : ℚ
  NCpW : ℚ
  Cs : List ℚ
  devolatilisationMass : ℚ
deriving DecidableEq

/-- The loop `forAll(dMassDV, i)` of the Bird correction in
`calcDevolatilisation`, from index `i` on over the remaining entries of
`dMassDV`; the state is `(N, NCpW, Cs)`. -/
def updateMolarEmissions (fn : externalFunctions) (composition : CompositionModel)
    (td : trackingData) (dt Ts d Wc beta : ℚ) :
    Nat → List ℚ → ℚ × ℚ × List ℚ → ℚ × ℚ × List ℚ
  | _, [], acc => acc
  | i, dMassDVi :: rest, (N, NCpW, Cs) =>
      let id := composition.localToCarrierId composition.idGas i
      let Cp := composition.carrier.Cpi id td.pc Ts
      let W := composition.carrier.WiValue id
      let Ni := dMassDVi / (fn.areaS d * dt * W)
      let Dab := 3.6059e-3 * (fn.pow (1.8 * Ts) 1.75) * fn.sqrt (1 / W + 1 / Wc)
        / (td.pc * beta)
      updateMolarEmissions fn composition td dt Ts d Wc beta (i + 1) rest
        (N + Ni, NCpW + Ni * Cp * W, List.modify (fun c => c + Ni * d / (2 * Dab)) id Cs)

/-- The member function `ReactingMultiphaseParcel::calcDevolatilisation`. -/
def calcDevolatilisation (fn : externalFunctions) (cloud : ReactingMultiphaseCloud)
    (parcel : ReactingMultiphaseParcel) (td : trackingData)
    (dt Ts d T mass mass0 : ℚ) (YGasEff YLiquidEff YSolidEff : List ℚ)
    (io : devolatilisationArgs) : Except String devolatilisationArgs :=
  -- Check that model is active
  if cloud.devolatilisation.isNoDevolatilisation then
    if io.canCombust ≠ -1 then
      .ok { io with canCombust := 1 }
    else
      .ok io
  else do
    -- Initialise demand-driven constants
    let TDevol ← cloud.constProps.TDevol
    let LDevol ← cloud.constProps.LDevol
    -- Check that the parcel temperature is within necessary limits
    if T < TDevol ∨ io.canCombust = -1 then
      return io
    else
      -- Total mass of volatiles evolved
      let (canCombust, dMassDV) ← cloud.devolatilisation.calculate parcel td dt mass0 mass T
        YGasEff YLiquidEff YSolidEff io.canCombust io.dMassDV
      let dMassTot := dMassDV.sum
      let devolatilisationMass := io.devolatilisationMass + parcel.nParticle_ * dMassTot
      let Sh := io.Sh - dMassTot * LDevol / dt
      -- Update molar emissions
      if cloud.BirdCorrection then
        let Wc := max fn.small (td.rhoc * fn.RR * td.Tc / td.pc)
        let beta := sqr (fn.cbrt 15.0 + fn.cbrt 15.0)
        let (N, NCpW, Cs) := updateMolarEmissions fn cloud.composition td dt Ts d Wc beta
          0 dMassDV (io.N, io.NCpW, io.Cs)
        return { canCombust := canCombust, dMassDV := dMassDV, Sh := Sh, N := N,
                 NCpW := NCpW, Cs := Cs, devolatilisationMass := devolatilisationMass }
      else
        return { canCombust := canCombust, dMassDV := dMassDV, Sh := Sh, N := io.N,
                 NCpW := io.NCpW, Cs := io.Cs, devolatilisationMass := devolatilisationMass }

/-- External functions for the examples (values are irrelevant there). -/
def exampleFunctions : externalFunctions :=
  { pow := fun x _ => x, sqrt := fun x => x, cbrt := fun x => x,
    small := 1 / 1000, RR := 8314, areaS := fun d => 3 * d * d }

/-- A cloud whose devolatilisation model is the "none" model and whose
dictionary has neither `TDevol` nor `LDevol`. -/
def exampleCloudNoDevolatilisation : ReactingMultiphaseCloud :=
  { devolatilisation :=
      { isNoDevolatilisation := true,
        calculate := fun _ _ _ _ _ _ _ _ _ _ _ => .error "NoDevolatilisation::calculate" },
    constProps := { TDevol := .error "TDevol not found", LDevol := .error "LDevol not found" },
    composition :=
      { idGas := 0, localToCarrierId := fun _ i => i,
        carrier := { Cpi := fun _ _ _ => 1000, WiValue := fun _ => 18 } },
    BirdCorrection := false }

/-- A parcel for the examples. -/
def exampleParcel : ReactingMultiphaseParcel :=
  { nParticle_ := 10, d_ := 1 / 1000, U_ := (0, 0, 0), T_ := 300, rho_ := 1000, Cp_ := 4000,
    Y_ := [1 / 2, 1 / 4, 1 / 4], mass0_ := 1, YGas_ := [1], YLiquid_ := [1], YSolid_ := [1],
    canCombust_ := 0, cell := 0 }

/-- Tracking data for the examples. -/
def exampleTrackingData : trackingData :=
  { pc := 100000, rhoc := 1, Tc := 300 }

/-- In-out arguments as `calc` passes them for a fresh parcel: the combustion
flag is 0, the transfer terms hold non-trivial values. -/
def exampleDevolatilisationArgs : devolatilisationArgs :=
  { canCombust := 0, dMassDV := [0], Sh := 2, N := 3, NCpW := 4, Cs := [0, 0],
    devolatilisationMass := 0 }

/-! ## Stationary mesh stitcher -/

/-- Modelled from the spec: the macro `NotImplemented` is defined outside the
given sources; "explicitly unimplemented and abort with a clear not implemented
signal if invoked": it raises the fatal error of that message and control does
not pass on to the statement after it. -/
def NotImplemented {α : Type} : Except String α :=
  .error "Not implemented"

/-- The member function `fvMeshStitchers::stationary::conformCorrectMeshPhi`:
the outcome of the call and the argument `phi` as the call leaves it. -/
def conformCorrectMeshPhi (phi : GeometricField ℚ) : Except String Unit × GeometricField ℚ :=
  (NotImplemented, phi)

/-- The member function
`fvMeshStitchers::stationary::createNonConformalCorrectMeshPhiGeometry`: the
outcome of the call and the arguments `polyFacesBf`, `SfSf` and `CfSf` as the
call leaves them. -/
def createNonConformalCorrectMeshPhiGeometry (polyFacesBf : List (PatchField ℤ))
    (SfSf CfSf : GeometricField (ℚ × ℚ × ℚ)) :
    Except String Unit
      × List (PatchField ℤ) × GeometricField (ℚ × ℚ × ℚ) × GeometricField (ℚ × ℚ × ℚ) :=
  (NotImplemented, polyFacesBf, SfSf, CfSf)

/-- The member function `fvMeshStitchers::stationary::unconformCorrectMeshPhi`:
the outcome of the call and the arguments `SfSf`, `CfSf` and `phi` as the call
leaves them (`polyFacesBf` is a constant reference). -/
def unconformCorrectMeshPhi (_polyFacesBf : List (PatchField ℤ))
    (SfSf CfSf : GeometricField (ℚ × ℚ × ℚ)) (phi : GeometricField ℚ) :
    Except String Unit
      × GeometricField (ℚ × ℚ × ℚ) × GeometricField (ℚ × ℚ × ℚ) × GeometricField ℚ :=
  (NotImplemented, SfSf, CfSf, phi)

/-! ## Herschel-Bulkley viscosity -/

/-- The coefficients `n_`, `k_` and `tau0_` of the Herschel-Bulkley model. -/
structure HerschelBulkley where
  n_ : ℚ
  k_ : ℚ
  tau0_ : ℚ

/-- The expression returned by `HerschelBulkley::nu` in one cell; `pow` and the
constant `rootVSmall` are defined outside the given sources and are
parameters. -/
def HerschelBulkley.nuCell (pow : ℚ → ℚ → ℚ) (rootVSmall : ℚ) (model : HerschelBulkley)
    (nu0 strainRate : ℚ) : ℚ :=
  min nu0
    ((model.tau0_ + model.k_ * pow strainRate model.n_) / max strainRate rootVSmall)

/-- The member function `HerschelBulkley::nu(nu0, strainRate)` on the fields of
cell values. -/
def HerschelBulkley.nu (pow : ℚ → ℚ → ℚ) (rootVSmall : ℚ) (model : HerschelBulkley)
    (nu0 strainRate : List ℚ) : List ℚ :=
  List.zipWith (model.nuCell pow rootVSmall) nu0 strainRate

/-- A Herschel-Bulkley fluid for the examples. -/
def exampleHerschelBulkley : HerschelBulkley :=
  { n_ := 1, k_ := 2, tau0_ := 3 }

/-! ## Reacting multiphase parcel: surface reactions, mass fractions and `calc` -/

/-- A `vector`. -/
abbrev vector := ℚ × ℚ × ℚ

/-- The surface-reaction model `cloud.surfaceReaction()`:
`isNoSurfaceReaction` is the answer of `isType<NoSurfaceReaction<...>>` on it,
`calculate` its member function of that name, which receives
`dt, cell, d, T, Tc, pc, rhoc, mass, YGas, YLiquid, YSolid, YMix, N` and the
in-out arguments `dMassSRGas, dMassSRLiquid, dMassSRSolid, dMassSRCarrier` and
returns the heat of reaction and the new values of the latter four. -/
structure SurfaceReactionModel where
  isNoSurfaceReaction : Bool
  calculate : ℚ → Nat → ℚ → ℚ → ℚ → ℚ → ℚ → ℚ → List ℚ → List ℚ → List ℚ → List ℚ → ℚ →
    List ℚ → List ℚ → List ℚ → List ℚ →
    Except String (ℚ × List ℚ × List ℚ × List ℚ × List ℚ)

/-- The cloud as `calc` and `calcSurfaceReactions` use it (the template
parameter `TrackCloudType`), in addition to the parts used by
`calcDevolatilisation`:
`idLiquid`, `idSolid`, `Cp`, `hs`, `L` are members of `cloud.composition()`,
`hsi` and `nCarrierSpecies` are `composition.carrier().hsi` and
`composition.carrier().species().size()`; `hRetentionCoeff` and `TMax` are
demand-driven entries of `cloud.constProps()`, `constantVolume` and
`minParcelMass` plain ones; `coupled` is `cloud.solution().coupled()` and
`radiation` is `cloud.radiation()`. -/
structure TrackCloudType extends ReactingMultiphaseCloud where
  idLiquid : Nat
  idSolid : Nat
  Cp : Nat → List ℚ → ℚ → ℚ → ℚ
  hs : Nat → List ℚ → ℚ → ℚ → ℚ
  L : Nat → List ℚ → ℚ → ℚ → ℚ
  hsi : Nat → ℚ → ℚ → ℚ
  nCarrierSpecies : Nat
  surfaceReaction : SurfaceReactionModel
  hRetentionCoeff : Except String ℚ
  TMax : Except String ℚ
  constantVolume : Bool
  minParcelMass : ℚ
  coupled : Bool
  radiation : Bool

/-- The in-out arguments of `calcSurfaceReactions`, together with the mass
accumulated in the cloud's surface-reaction model by
`addToSurfaceReactionMass`. -/
structure surfaceReactionArgs where
  dMassSRGas : List ℚ
  dMassSRLiquid : List ℚ
  dMassSRSolid : List ℚ
  dMassSRCarrier : List ℚ
  Sh : ℚ
  dhsTrans : ℚ
  surfaceReactionMass : ℚ
deriving DecidableEq

/-- The member function `ReactingMultiphaseParcel::calcSurfaceReactions`. -/
def calcSurfaceReactions (cloud : TrackCloudType) (parcel : ReactingMultiphaseParcel)
    (td : trackingData) (dt d T mass : ℚ) (canCombust : ℤ) (N : ℚ)
    (YMix YGas YLiquid YSolid : List ℚ) (io : surfaceReactionArgs) :
    Except String surfaceReactionArgs :=
  -- Check that model is active
  if cloud.surfaceReaction.isNoSurfaceReaction then
    .ok io
  else do
    -- Initialise demand-driven constants
    let hRetentionCoeff ← cloud.hRetentionCoeff
    let TMax ← cloud.TMax
    -- Check that model is active
    if canCombust ≠ 1 then
      return io
    else
      -- Update surface reactions
      let (hReaction, dMassSRGas, dMassSRLiquid, dMassSRSolid, dMassSRCarrier) ←
        cloud.surfaceReaction.calculate dt parcel.cell d T td.Tc td.pc td.rhoc mass
          YGas YLiquid YSolid YMix N
          io.dMassSRGas io.dMassSRLiquid io.dMassSRSolid io.dMassSRCarrier
      let surfaceReactionMass := io.surfaceReactionMass
        + parcel.nParticle_ * (dMassSRGas.sum + dMassSRLiquid.sum + dMassSRSolid.sum)
      let xsi := min (T / TMax) 1.0
      let coeff := (1.0 - xsi * xsi) * hRetentionCoeff
      return { dMassSRGas := dMassSRGas, dMassSRLiquid := dMassSRLiquid,
               dMassSRSolid := dMassSRSolid, dMassSRCarrier := dMassSRCarrier,
               Sh := io.Sh + coeff * hReaction / dt,
               dhsTrans := io.dhsTrans + (1.0 - coeff) * hReaction,
               surfaceReactionMass := surfaceReactionMass }

/-- A surface-reaction model for the examples: the "none" model when
`noSR` is true; an active one whose `calculate` fails otherwise. -/
def exampleSurfaceReaction (noSR : Bool) : SurfaceReactionModel :=
  { isNoSurfaceReaction := noSR,
    calculate := fun _ _ _ _ _ _ _ _ _ _ _ _ _ _ _ _ _ => .error "SurfaceReaction::calculate" }

/-- A devolatilisation model for the examples: active, with a `calculate` that
fails. -/
def exampleDevolatilisation : DevolatilisationModel :=
  { isNoDevolatilisation := false,
    calculate := fun _ _ _ _ _ _ _ _ _ _ _ => .error "Devolatilisation::calculate" }

/-- A cloud for the examples: active devolatilisation model with `TDevol` 400
and `LDevol` 0; surface-reaction model "none" when `noSR` is true, without
`hRetentionCoeff` and `TMax` entries in that case; coupled, with a minimum
parcel mass `minParcelMass`. -/
def exampleCloud (noSR : Bool) (constantVolume : Bool) (minParcelMass : ℚ) : TrackCloudType :=
  { devolatilisation := exampleDevolatilisation,
    constProps := { TDevol := .ok 400, LDevol := .ok 0 },
    composition :=
      { idGas := 0, localToCarrierId := fun _ i => i,
        carrier := { Cpi := fun _ _ _ => 1000, WiValue := fun _ => 18 } },
    BirdCorrection := false,
    idLiquid := 1, idSolid := 2,
    Cp := fun _ _ _ _ => 1000, hs := fun _ _ _ _ => 10, L := fun _ _ _ _ => 0,
    hsi := fun _ _ _ => 10, nCarrierSpecies := 2,
    surfaceReaction := exampleSurfaceReaction noSR,
    hRetentionCoeff := if noSR then .error "hRetentionCoeff not found" else .ok (1 / 2),
    TMax := if noSR then .error "TMax not found" else .ok 1000,
    constantVolume := constantVolume, minParcelMass := minParcelMass,
    coupled := true, radiation := false }

/-- The example cloud with an active devolatilisation model whose dictionary
has `TDevol` 400 and no `LDevol` entry. -/
def exampleCloudMissingLDevol : ReactingMultiphaseCloud :=
  { (exampleCloud true false 0).toReactingMultiphaseCloud with
    constProps := { TDevol := .ok 400, LDevol := .error "LDevol not found" } }

/-- The example cloud with an active devolatilisation model whose dictionary
has `LDevol` 0 and no `TDevol` entry. -/
def exampleCloudMissingTDevol : ReactingMultiphaseCloud :=
  { (exampleCloud true false 0).toReactingMultiphaseCloud with
    constProps := { TDevol := .error "TDevol not found", LDevol := .ok 0 } }

/-- The example cloud with an active surface-reaction model whose dictionary
has `hRetentionCoeff` 1/2 and no `TMax` entry. -/
def exampleCloudMissingTMax : TrackCloudType :=
  { exampleCloud false false 0 with TMax := .error "TMax not found" }

/-- The example cloud with an active surface-reaction model whose dictionary
has `TMax` 1000 and no `hRetentionCoeff` entry. -/
def exampleCloudMissingHRetentionCoeff : TrackCloudType :=
  { exampleCloud false false 0 with hRetentionCoeff := .error "hRetentionCoeff not found" }

/-- In-out arguments of `calcSurfaceReactions` with non-trivial values. -/
def exampleSurfaceReactionArgs : surfaceReactionArgs :=
  { dMassSRGas := [1], dMassSRLiquid := [2], dMassSRSolid := [3], dMassSRCarrier := [4, 5],
    Sh := 6, dhsTrans := 7, surfaceReactionMass := 8 }

/-- Constants and member functions of the base parcel classes that
`ReactingMultiphaseParcel.C` uses and that are defined outside the given
sources; they are parameters of the embedding. `pi` and `rootVSmall` are the
constants of these names. `calcSurfaceValues` returns
`(Ts, rhos, mus, Prs, kappas)`; `calcPhaseChange` returns the new values of its
in-out arguments `(dMassPC, Sh, N, NCpW, Cs)` and the mass it adds to the phase
change model; `updateMassFraction` returns the new mass and the new value of
its in-out argument `Y`; `correctSurfaceValues` returns the new
`(rhos, mus, Prs, kappas)`; `calcHeatTransfer` returns the new temperature and
the new values of `(dhsTrans, Sph)`; `calcVelocity` returns the new velocity
and the new values of `(dUTrans, Spu)`. -/
structure parcelFunctions where
  pi : ℚ
  rootVSmall : ℚ
  mass : ReactingMultiphaseParcel → ℚ
  volume : ReactingMultiphaseParcel → ℚ
  areaP : ReactingMultiphaseParcel → ℚ
  calcSurfaceValues : ReactingMultiphaseParcel → trackingData → ℚ → ℚ × ℚ × ℚ × ℚ × ℚ
  Re : ℚ → vector → vector → ℚ → ℚ → ℚ
  calcPhaseChange : ReactingMultiphaseParcel → trackingData → ℚ → ℚ → ℚ → ℚ → ℚ → ℚ → ℚ → ℚ →
    Nat → ℚ → List ℚ → List ℚ → ℚ → ℚ → ℚ → List ℚ → List ℚ × ℚ × ℚ × ℚ × List ℚ × ℚ
  updateMassFraction : ℚ → List ℚ → List ℚ → ℚ × List ℚ
  correctSurfaceValues : ReactingMultiphaseParcel → trackingData → ℚ → List ℚ →
    ℚ → ℚ → ℚ → ℚ → ℚ × ℚ × ℚ × ℚ
  calcHeatTransfer : ReactingMultiphaseParcel → trackingData → ℚ → ℚ → ℚ → ℚ → ℚ → ℚ → ℚ → ℚ →
    ℚ × ℚ × ℚ
  calcVelocity : ReactingMultiphaseParcel → trackingData → ℚ → ℚ → ℚ → ℚ →
    vector → vector → ℚ → vector × vector × ℚ

/-- Read access `Y[i]` to a scalar field. -/
def fieldAt (Y : List ℚ) (i : Nat) : ℚ :=
  Y.getD i 0

/-- The member function `ReactingMultiphaseParcel::CpEff`. -/
def CpEff (cloud : TrackCloudType) (parcel : ReactingMultiphaseParcel) (p T : ℚ)
    (idG idL idS : Nat) : ℚ :=
  fieldAt parcel.Y_ idG * cloud.Cp idG parcel.YGas_ p T
    + fieldAt parcel.Y_ idL * cloud.Cp idL parcel.YLiquid_ p T
    + fieldAt parcel.Y_ idS * cloud.Cp idS parcel.YSolid_ p T

/-- The member function `ReactingMultiphaseParcel::hsEff`. -/
def hsEff (cloud : TrackCloudType) (parcel : ReactingMultiphaseParcel) (p T : ℚ)
    (idG idL idS : Nat) : ℚ :=
  fieldAt parcel.Y_ idG * cloud.hs idG parcel.YGas_ p T
    + fieldAt parcel.Y_ idL * cloud.hs idL parcel.YLiquid_ p T
    + fieldAt parcel.Y_ idS * cloud.hs idS parcel.YSolid_ p T

/-- The member function `ReactingMultiphaseParcel::LEff`. -/
def LEff (cloud : TrackCloudType) (parcel : ReactingMultiphaseParcel) (p T : ℚ)
    (idG idL idS : Nat) : ℚ :=
  fieldAt parcel.Y_ idG * cloud.L idG parcel.YGas_ p T
    + fieldAt parcel.Y_ idL * cloud.L idL parcel.YLiquid_ p T
    + fieldAt parcel.Y_ idS * cloud.L idS parcel.YSolid_ p T

/-- The member function `ReactingMultiphaseParcel::updateMassFractions`: the
returned mass and the parcel with the updated `Y_`, `YGas_`, `YLiquid_` and
`YSolid_`. The scalar operations are exact here; `updateMassFractionsRounded`
is the same function with their rounding made explicit. -/
def updateMassFractions (pf : parcelFunctions) (mass0 : ℚ)
    (dMassGas dMassLiquid dMassSolid : List ℚ) (idG idL idS : Nat)
    (parcel : ReactingMultiphaseParcel) : ℚ × ReactingMultiphaseParcel :=
  let YMix := parcel.Y_
  let (massGas, YGas) := pf.updateMassFraction (mass0 * fieldAt YMix idG) dMassGas parcel.YGas_
  let (massLiquid, YLiquid) :=
    pf.updateMassFraction (mass0 * fieldAt YMix idL) dMassLiquid parcel.YLiquid_
  let (massSolid, YSolid) :=
    pf.updateMassFraction (mass0 * fieldAt YMix idS) dMassSolid parcel.YSolid_
  let massNew := max (massGas + massLiquid + massSolid) pf.rootVSmall
  let YMix1 := YMix.set idG (massGas / massNew)
  let YMix2 := YMix1.set idL (massLiquid / massNew)
  let YMix3 := YMix2.set idS (1.0 - fieldAt YMix2 idG - fieldAt YMix2 idL)
  (massNew, { parcel with Y_ := YMix3, YGas_ := YGas, YLiquid_ := YLiquid, YSolid_ := YSolid })

/-- The step "Update particle density or diameter" of `calc`. -/
def updateDensityOrDiameter (fn : externalFunctions) (pf : parcelFunctions)
    (cloud : TrackCloudType) (mass1 : ℚ) (parcel : ReactingMultiphaseParcel) :
    ReactingMultiphaseParcel :=
  if cloud.constantVolume then
    { parcel with rho_ := mass1 / pf.volume parcel }
  else
    { parcel with d_ := fn.cbrt (mass1 / parcel.rho_ * 6.0 / pf.pi) }

/-- The carrier-phase source fields of the cloud that `calc` adds to
(`rhoTrans(i)[cell]`, `UTransRef()[cell]`, ...) and the masses accumulated in
the phase change, devolatilisation and surface-reaction models. -/
structure cloudSources where
  rhoTrans : Nat → Nat → ℚ
  UTrans : Nat → vector
  UCoeff : Nat → ℚ
  hsTrans : Nat → ℚ
  hsCoeff : Nat → ℚ
  radAreaP : Nat → ℚ
  radT4 : Nat → ℚ
  radAreaPT4 : Nat → ℚ
  phaseChangeMass : ℚ
  devolatilisationMass : ℚ
  surfaceReactionMass : ℚ

/-- The statement `field[cell] += x`. -/
def addAt {α : Type} [Add α] (field : Nat → α) (cell : Nat) (x : α) : Nat → α :=
  Function.update field cell (field cell + x)

/-- The statement `cloud.rhoTrans(gid)[cell] += x`. -/
def addToRhoTrans (rhoTrans : Nat → Nat → ℚ) (gid cell : Nat) (x : ℚ) : Nat → Nat → ℚ :=
  Function.update rhoTrans gid (addAt (rhoTrans gid) cell x)

/-- The loop `forAll(list, i)` over the indices `0, ..., n - 1` of a list of
size `n`. -/
def forAllIndices {σ : Type} (n : Nat) (init : σ) (body : σ → Nat → σ) : σ :=
  (List.range n).foldl body init

/-- What `calc` reads and writes besides its arguments: the parcel, the flag
`td.keepParticle` and the sources of the cloud. -/
structure calcState where
  parcel : ReactingMultiphaseParcel
  keepParticle : Bool
  sources : cloudSources

/-- The values that sections 1 and 2 of `calc` hand on to the rest of the
function: the updated parcel and sources, the new mass `mass1`, the surface
values, the enthalpy sources and the mass transfers. -/
structure massTransferResult where
  parcel : ReactingMultiphaseParcel
  sources : cloudSources
  mass1 : ℚ
  Ts : ℚ
  rhos : ℚ
  mus : ℚ
  Prs : ℚ
  kappas : ℚ
  Sh : ℚ
  dhsTrans : ℚ
  NCpW : ℚ
  Cs : List ℚ
  dMassGas : List ℚ
  dMassLiquid : List ℚ
  dMassSRCarrier : List ℚ

/-- Sections "1. Compute models that contribute to mass transfer" and
"2. Update the parcel properties due to change in mass" of `calc`, up to and
including the update of the density or diameter. -/
def calcMassTransfer (fn : externalFunctions) (pf : parcelFunctions) (cloud : TrackCloudType)
    (td : trackingData) (Uc : vector) (dt : ℚ) (s : calcState) :
    Except String massTransferResult := do
  -- Define local properties at beginning of timestep
  let d0 := s.parcel.d_
  let U0 := s.parcel.U_
  let T0 := s.parcel.T_
  let mass0 := pf.mass s.parcel
  let pc := td.pc
  let YMix := s.parcel.Y_
  let idG := cloud.composition.idGas
  let idL := cloud.idLiquid
  let idS := cloud.idSolid
  -- Calc surface values
  let (Ts, rhos, mus, Prs, kappas) := pf.calcSurfaceValues s.parcel td T0
  let Res := pf.Re rhos U0 Uc d0 mus
  -- Phase change in liquid phase
  let (dMassPC, ShPC, NePC, NCpWPC, CsPC, phaseChangeMass) :=
    pf.calcPhaseChange s.parcel td dt Res Prs Ts (mus / rhos) d0 T0 mass0 idL
      (fieldAt YMix idL) s.parcel.YLiquid_
      (List.replicate s.parcel.YLiquid_.length 0.0) 0.0 0.0 0.0
      (List.replicate cloud.nCarrierSpecies 0.0)
  -- Devolatilisation
  let dv ← calcDevolatilisation fn cloud.toReactingMultiphaseCloud s.parcel td dt Ts d0 T0
    mass0 s.parcel.mass0_
    (s.parcel.YGas_.map (fun Y => fieldAt YMix idG * Y))
    (s.parcel.YLiquid_.map (fun Y => fieldAt YMix idL * Y))
    (s.parcel.YSolid_.map (fun Y => fieldAt YMix idS * Y))
    { canCombust := s.parcel.canCombust_,
      dMassDV := List.replicate s.parcel.YGas_.length 0.0,
      Sh := ShPC, N := NePC, NCpW := NCpWPC, Cs := CsPC,
      devolatilisationMass := s.sources.devolatilisationMass }
  let parcelDV := { s.parcel with canCombust_ := dv.canCombust }
  -- Surface reactions
  let sr ← calcSurfaceReactions cloud parcelDV td dt d0 T0 mass0 parcelDV.canCombust_ dv.N
    YMix parcelDV.YGas_ parcelDV.YLiquid_ parcelDV.YSolid_
    { dMassSRGas := List.replicate parcelDV.YGas_.length 0.0,
      dMassSRLiquid := List.replicate parcelDV.YLiquid_.length 0.0,
      dMassSRSolid := List.replicate parcelDV.YSolid_.length 0.0,
      dMassSRCarrier := List.replicate cloud.nCarrierSpecies 0.0,
      Sh := dv.Sh, dhsTrans := 0.0,
      surfaceReactionMass := s.sources.surfaceReactionMass }
  -- 2. Update the parcel properties due to change in mass
  let dMassGas := List.zipWith (fun a b => a + b) dv.dMassDV sr.dMassSRGas
  let dMassLiquid := List.zipWith (fun a b => a + b) dMassPC sr.dMassSRLiquid
  let dMassSolid := sr.dMassSRSolid
  let (mass1, parcelY) :=
    updateMassFractions pf mass0 dMassGas dMassLiquid dMassSolid idG idL idS parcelDV
  let parcelCp := { parcelY with Cp_ := CpEff cloud parcelY pc T0 idG idL idS }
  -- Update particle density or diameter
  let parcelRhoD := updateDensityOrDiameter fn pf cloud mass1 parcelCp
  return { parcel := parcelRhoD,
           sources := { s.sources with
             phaseChangeMass := s.sources.phaseChangeMass + phaseChangeMass,
             devolatilisationMass := dv.devolatilisationMass,
             surfaceReactionMass := sr.surfaceReactionMass },
           mass1 := mass1, Ts := Ts, rhos := rhos, mus := mus, Prs := Prs, kappas := kappas,
           Sh := sr.Sh, dhsTrans := sr.dhsTrans, NCpW := dv.NCpW, Cs := dv.Cs,
           dMassGas := dMassGas, dMassLiquid := dMassLiquid,
           dMassSRCarrier := sr.dMassSRCarrier }

/-- The body of `if (cloud.solution().coupled())` in the removal branch of
`calc`, "Absorb parcel into carrier phase": `np0`, `mass0`, `T0` are the values
at the beginning of the time step, `parcel` is the parcel after section 2
(`YMix`, `YGas_`, `YLiquid_` are its updated members and `U0` refers to its
velocity). -/
def absorbParcel (cloud : TrackCloudType) (td : trackingData) (np0 mass0 T0 mass1 : ℚ)
    (parcel : ReactingMultiphaseParcel) (sources : cloudSources) : cloudSources :=
  let idG := cloud.composition.idGas
  let idL := cloud.idLiquid
  let idS := cloud.idSolid
  let YMix := parcel.Y_
  let dm := np0 * mass0
  let rhoTransG := forAllIndices parcel.YGas_.length sources.rhoTrans (fun rhoTrans i =>
    let gid := cloud.composition.localToCarrierId idG i
    addToRhoTrans rhoTrans gid parcel.cell (dm * fieldAt YMix idG * fieldAt parcel.YGas_ i))
  let rhoTransL := forAllIndices parcel.YLiquid_.length rhoTransG (fun rhoTrans i =>
    let gid := cloud.composition.localToCarrierId idL i
    addToRhoTrans rhoTrans gid parcel.cell (dm * fieldAt YMix idL * fieldAt parcel.YLiquid_ i))
  -- No mapping between solid components and carrier phase
  { sources with
    rhoTrans := rhoTransL,
    UTrans := addAt sources.UTrans parcel.cell (dm • parcel.U_),
    hsTrans := addAt sources.hsTrans parcel.cell (dm * hsEff cloud parcel td.pc T0 idG idL idS),
    phaseChangeMass := sources.phaseChangeMass + np0 * mass1 }

/-- The branch "Remove the particle when mass falls below minimum threshold"
of `calc`. -/
def removeParcel (cloud : TrackCloudType) (td : trackingData) (np0 mass0 T0 : ℚ)
    (m : massTransferResult) : calcState :=
  { parcel := m.parcel,
    keepParticle := false,
    sources :=
      if cloud.coupled then absorbParcel cloud td np0 mass0 T0 m.mass1 m.parcel m.sources
      else m.sources }

/-- One pass of the loops "Transfer mass lost to carrier mass, momentum and
enthalpy sources" of `calc`: `rhoTrans(gid)[cell] += dm`,
`UTransRef()[cell] += dm*U0` and `hsTransRef()[cell] += dm*hs`. -/
def transferToCarrier (sources : cloudSources) (gid cell : Nat) (dm : ℚ) (U0 : vector)
    (hs : ℚ) : cloudSources :=
  { sources with
    rhoTrans := addToRhoTrans sources.rhoTrans gid cell dm,
    UTrans := addAt sources.UTrans cell (dm • U0),
    hsTrans := addAt sources.hsTrans cell (dm * hs) }

/-- Section "4. Accumulate carrier phase source terms" of `calc`, the body of
`if (cloud.solution().coupled())`; `parcel` is the parcel after section 3, and
`U0`, a reference to the velocity of the parcel, is its new velocity. -/
def accumulateSources (pf : parcelFunctions) (cloud : TrackCloudType) (td : trackingData)
    (dt np0 T0 : ℚ) (parcel : ReactingMultiphaseParcel)
    (dMassGas dMassLiquid dMassSRCarrier : List ℚ) (dUTrans : vector)
    (Spu dhsTrans Sph : ℚ) (sources : cloudSources) : cloudSources :=
  let idG := cloud.composition.idGas
  let idL := cloud.idLiquid
  let pc := td.pc
  let U0 := parcel.U_
  let cell := parcel.cell
  let sourcesG := forAllIndices parcel.YGas_.length sources (fun src i =>
    let dm := np0 * fieldAt dMassGas i
    let gid := cloud.composition.localToCarrierId idG i
    let hs := cloud.hsi gid pc T0
    transferToCarrier src gid cell dm U0 hs)
  let sourcesL := forAllIndices parcel.YLiquid_.length sourcesG (fun src i =>
    let dm := np0 * fieldAt dMassLiquid i
    let gid := cloud.composition.localToCarrierId idL i
    let hs := cloud.hsi gid pc T0
    transferToCarrier src gid cell dm U0 hs)
  -- No mapping between solid components and carrier phase
  let sourcesC := forAllIndices dMassSRCarrier.length sourcesL (fun src i =>
    let dm := np0 * fieldAt dMassSRCarrier i
    let hs := cloud.hsi i pc T0
    transferToCarrier src i cell dm U0 hs)
  -- Update momentum transfer and sensible enthalpy transfer
  let sourcesT := { sourcesC with
    UTrans := addAt sourcesC.UTrans cell (np0 • dUTrans),
    UCoeff := addAt sourcesC.UCoeff cell (np0 * Spu),
    hsTrans := addAt sourcesC.hsTrans cell (np0 * dhsTrans),
    hsCoeff := addAt sourcesC.hsCoeff cell (np0 * Sph) }
  -- Update radiation fields
  if cloud.radiation then
    let ap := pf.areaP parcel
    let T4 := T0 ^ 4
    { sourcesT with
      radAreaP := addAt sourcesT.radAreaP cell (dt * np0 * ap),
      radT4 := addAt sourcesT.radT4 cell (dt * np0 * T4),
      radAreaPT4 := addAt sourcesT.radAreaPT4 cell (dt * np0 * ap * T4) }
  else
    sourcesT

/-- Sections "3. Compute heat- and momentum transfers" and "4. Accumulate
carrier phase source terms" of `calc`, from "Correct surface values due to
emitted species" on. -/
def calcHeatAndMomentumTransfer (pf : parcelFunctions) (cloud : TrackCloudType)
    (td : trackingData) (Uc : vector) (dt np0 T0 : ℚ) (keepParticle : Bool)
    (m : massTransferResult) : calcState :=
  let idG := cloud.composition.idGas
  let idL := cloud.idLiquid
  let idS := cloud.idSolid
  let pc := td.pc
  -- Correct surface values due to emitted species
  let (rhos, mus, Prs, kappas) :=
    pf.correctSurfaceValues m.parcel td m.Ts m.Cs m.rhos m.mus m.Prs m.kappas
  let Res := pf.Re rhos m.parcel.U_ Uc m.parcel.d_ mus
  -- Calculate new particle temperature
  let (T1, dhsTrans, Sph) :=
    pf.calcHeatTransfer m.parcel td dt Res Prs kappas m.NCpW m.Sh m.dhsTrans 0.0
  let parcelT := { m.parcel with T_ := T1 }
  let parcelCp := { parcelT with Cp_ := CpEff cloud parcelT pc parcelT.T_ idG idL idS }
  -- Calculate new particle velocity
  let (U1, dUTrans, Spu) :=
    pf.calcVelocity parcelCp td dt Res mus m.mass1 (0, 0, 0) (0, 0, 0) 0.0
  let parcelU := { parcelCp with U_ := U1 }
  { parcel := parcelU,
    keepParticle := keepParticle,
    sources :=
      if cloud.coupled then
        accumulateSources pf cloud td dt np0 T0 parcelU m.dMassGas m.dMassLiquid
          m.dMassSRCarrier dUTrans Spu dhsTrans Sph m.sources
      else m.sources }

/-- The member function `ReactingMultiphaseParcel::calc`. -/
def ReactingMultiphaseParcel.calc (fn : externalFunctions) (pf : parcelFunctions) (cloud : TrackCloudType)
    (td : trackingData) (Uc : vector) (dt : ℚ) (s : calcState) : Except String calcState := do
  let np0 := s.parcel.nParticle_
  let T0 := s.parcel.T_
  let mass0 := pf.mass s.parcel
  let m ← calcMassTransfer fn pf cloud td Uc dt s
  -- Remove the particle when mass falls below minimum threshold
  if np0 * m.mass1 < cloud.minParcelMass then
    return removeParcel cloud td np0 mass0 T0 m
  else
    return calcHeatAndMomentumTransfer pf cloud td Uc dt np0 T0 s.keepParticle m

/-- Parcel functions for the examples: the parcel volume is `pi*d^3/6` with
22/7 standing for `pi`, the mass is density times volume, no phase change,
`updateMassFraction` subtracts the sum of the mass changes, and the heat
transfer and velocity steps return the temperature `T1` and the velocity with
x-component `T1`. -/
def exampleParcelFunctions (T1 : ℚ) : parcelFunctions :=
  { pi := 22 / 7,
    rootVSmall := 1 / 10 ^ 150,
    mass := fun p => p.rho_ * (22 / 7 * p.d_ ^ 3 / 6),
    volume := fun p => 22 / 7 * p.d_ ^ 3 / 6,
    areaP := fun p => 22 / 7 * p.d_ ^ 2 / 4,
    calcSurfaceValues := fun _ _ T => (T, 1, 1, 1, 1),
    Re := fun _ _ _ _ _ => 1,
    calcPhaseChange := fun _ _ _ _ _ _ _ _ _ _ _ _ _ dMassPC Sh N NCpW Cs =>
      (dMassPC, Sh, N, NCpW, Cs, 0),
    updateMassFraction := fun mass0 dMass Y => (mass0 - dMass.sum, Y),
    correctSurfaceValues := fun _ _ _ _ rhos mus Prs kappas => (rhos, mus, Prs, kappas),
    calcHeatTransfer := fun _ _ _ _ _ _ _ _ dhsTrans Sph => (T1, dhsTrans, Sph),
    calcVelocity := fun _ _ _ _ _ _ _ dUTrans Spu => ((T1, 0, 0), dUTrans, Spu) }

/-- Sources that are zero everywhere. -/
def exampleSources : cloudSources :=
  { rhoTrans := fun _ _ => 0, UTrans := fun _ => (0, 0, 0), UCoeff := fun _ => 0,
    hsTrans := fun _ => 0, hsCoeff := fun _ => 0, radAreaP := fun _ => 0,
    radT4 := fun _ => 0, radAreaPT4 := fun _ => 0,
    phaseChangeMass := 0, devolatilisationMass := 0, surfaceReactionMass := 0 }

/-- A parcel of diameter 1 and density 2 moving with velocity (3, 0, 0) in
cell 5, with temperature 300. -/
def exampleParcelMoving : ReactingMultiphaseParcel :=
  { nParticle_ := 10, d_ := 1, U_ := (3, 0, 0), T_ := 300, rho_ := 2, Cp_ := 4000,
    Y_ := [1 / 2, 1 / 4, 1 / 4], mass0_ := 1, YGas_ := [1], YLiquid_ := [1], YSolid_ := [1],
    canCombust_ := 0, cell := 5 }

/-- The state of the examples on entry to `calc`. -/
def exampleCalcState : calcState :=
  { parcel := exampleParcelMoving, keepParticle := true, sources := exampleSources }

/-! ## Scalars in the arithmetic of the machine -/

/-- The integer nearest to `n / d` for a positive `d`, the even one of the two
when `n / d` lies half-way between two integers. -/
def roundHalfEven (n : ℤ) (d : ℕ) : ℤ :=
  let q := n / d
  let r := n % d
  if 2 * r < d then q
  else if (d : ℤ) < 2 * r then q + 1
  else if q % 2 = 0 then q else q + 1

/-- The position of the leading binary digit of `n`, found in at most `fuel`
halvings: the integer part of the binary logarithm of `n` when `n` is positive
and `fuel` is at least `n`. -/
def floorLog2 : Nat → Nat → Nat
  | 0, _ => 0
  | fuel + 1, n => if n < 2 then 0 else floorLog2 fuel (n / 2) + 1

/-- A `Foam::scalar` is a `double` in the double-precision build: the value
that an arithmetic operation with the exact result `x` delivers is the IEEE 754
binary64 number nearest to `x`, ties going to the even significand (53
significant bits, least normal exponent -1022, gradual underflow below it).
Overflow to infinity is outside the embedding: beyond the largest finite double
the exponent is left unbounded. -/
def roundToScalar (x : ℚ) : ℚ :=
  if x = 0 then 0 else
    let n := x.num.natAbs
    let d := x.den
    -- the binary exponent `e` of `x`: 2^e ≤ |x| < 2^(e+1)
    let e0 : ℤ := (floorLog2 n n : ℤ) - (floorLog2 d d : ℤ)
    let e : ℤ := if n * 2 ^ (-e0).toNat < d * 2 ^ e0.toNat then e0 - 1 else e0
    -- the exponent of the unit in the last place
    let u : ℤ := max e (-1022) - 52
    mkRat (roundHalfEven (x.num * 2 ^ (-u).toNat) (d * 2 ^ u.toNat) * 2 ^ u.toNat)
      (2 ^ (-u).toNat)

/-- The member function `ReactingMultiphaseParcel::updateMassFractions` with
the rounding of the scalar arithmetic made explicit: every product, sum,
quotient and difference delivers its exact result rounded by `rnd`
(`roundToScalar` for `double`). With `rnd` the identity this is
`updateMassFractions`. -/
def updateMassFractionsRounded (rnd : ℚ → ℚ) (pf : parcelFunctions) (mass0 : ℚ)
    (dMassGas dMassLiquid dMassSolid : List ℚ) (idG idL idS : Nat)
    (parcel : ReactingMultiphaseParcel) : ℚ × ReactingMultiphaseParcel :=
  let YMix := parcel.Y_
  let (massGas, YGas) :=
    pf.updateMassFraction (rnd (mass0 * fieldAt YMix idG)) dMassGas parcel.YGas_
  let (massLiquid, YLiquid) :=
    pf.updateMassFraction (rnd (mass0 * fieldAt YMix idL)) dMassLiquid parcel.YLiquid_
  let (massSolid, YSolid) :=
    pf.updateMassFraction (rnd (mass0 * fieldAt YMix idS)) dMassSolid parcel.YSolid_
  let massNew := max (rnd (rnd (massGas + massLiquid) + massSolid)) pf.rootVSmall
  let YMix1 := YMix.set idG (rnd (massGas / massNew))
  let YMix2 := YMix1.set idL (rnd (massLiquid / massNew))
  let YMix3 := YMix2.set idS (rnd (rnd (1.0 - fieldAt YMix2 idG) - fieldAt YMix2 idL))
  (massNew, { parcel with Y_ := YMix3, YGas_ := YGas, YLiquid_ := YLiquid, YSolid_ := YSolid })

/-! ## Lemmas on keys and tables -/

theorem phaseInterfaceKey.equal_self (k : phaseInterfaceKey) : k.equal k = true := by
  simp [phaseInterfaceKey.equal]

theorem phaseInterfaceKey.equal_swap (e : phaseInterfaceKey) (A B : word) :
    e.equal ⟨A, B⟩ = e.equal ⟨B, A⟩ := by
  simp only [phaseInterfaceKey.equal]
  exact Bool.or_comm _ _

theorem phaseInterfaceKey.hash_swap (wordHash : word → Nat) (A B : word) :
    (phaseInterfaceKey.mk A B).hash wordHash = (phaseInterfaceKey.mk B A).hash wordHash := by
  simp only [phaseInterfaceKey.hash]
  exact Nat.add_comm _ _

theorem HashPtrTable.find_swap {T : Type} (wordHash : word → Nat) (t : HashPtrTable T)
    (A B : word) : t.find wordHash ⟨A, B⟩ = t.find wordHash ⟨B, A⟩ := by
  have hp : (fun e : phaseInterfaceKey × T => e.1.equal ⟨A, B⟩)
      = (fun e : phaseInterfaceKey × T => e.1.equal ⟨B, A⟩) := by
    funext e
    exact phaseInterfaceKey.equal_swap e.1 A B
  simp only [HashPtrTable.find, phaseInterfaceKey.hash_swap wordHash A B, hp]

theorem HashPtrTable.find_insert {T : Type} (wordHash : word → Nat) (t : HashPtrTable T)
    (k : phaseInterfaceKey) (v : T) : (t.insert wordHash k v).find wordHash k = some v := by
  cases t with
  | mk table =>
    cases table with
    | nil =>
      simp [HashPtrTable.insert, HashPtrTable.find, Nat.mod_one,
        phaseInterfaceKey.equal_self]
    | cons b bs =>
      have hlt : k.hash wordHash % (b :: bs).length < (b :: bs).length :=
        Nat.mod_lt _ (by simp)
      simp only [HashPtrTable.insert, HashPtrTable.find, List.length_set]
      rw [List.getElem?_set_self hlt]
      simp [phaseInterfaceKey.equal_self]

theorem HashPtrTable.find_clear {T : Type} (wordHash : word → Nat) (t : HashPtrTable T)
    (k : phaseInterfaceKey) : t.clear.find wordHash k = none := by
  simp only [HashPtrTable.clear, HashPtrTable.find, List.length_map, List.getElem?_map]
  cases t.table[k.hash wordHash % t.table.length]? <;> simp

/-! ## Lemmas on the Gauss-Jordan elimination -/

theorem pivotRows_mul {n : Nat} (kk : Fin n) (p : ℚ) (col : Fin n → ℚ)
    (x a : Matrix (Fin n) (Fin n) ℚ) :
    pivotRows kk p col (x * a) = pivotRows kk p col x * a := by
  ext i j
  simp only [pivotRows, Matrix.mul_apply]
  by_cases hi : i = kk
  · simp only [hi, if_true, Finset.sum_div]
    refine Finset.sum_congr rfl fun m _ => ?_
    ring
  · simp only [hi, if_false, sub_mul, Finset.sum_sub_distrib, Finset.mul_sum]
    congr 1
    refine Finset.sum_congr rfl fun m _ => ?_
    ring

theorem reducedPart_step {n : Nat} (k : Nat) (h : k < n) (b : Matrix (Fin n) (Fin n) ℚ)
    (hp : b ⟨k, h⟩ ⟨k, h⟩ ≠ 0) :
    reducedPart (k + 1) (gaussJordanStep ⟨k, h⟩ b)
      = pivotRows ⟨k, h⟩ (b ⟨k, h⟩ ⟨k, h⟩) (fun i => b i ⟨k, h⟩) (reducedPart k b) := by
  ext i j
  simp only [reducedPart, pivotRows, gaussJordanStep, lt_self_iff_false, if_false]
  rcases Nat.lt_trichotomy j.val k with hj | hj | hj
  · have hjk : j ≠ ⟨k, h⟩ := fun e => by rw [e] at hj; exact lt_irrefl _ hj
    have hkj : (⟨k, h⟩ : Fin n) ≠ j := fun e => hjk e.symm
    have hj1 : j.val < k + 1 := by omega
    by_cases hi : i = ⟨k, h⟩
    · subst hi
      simp [hj, hj1, hkj]
    · simp [hj, hj1, hkj, hi]
  · have hjk : j = ⟨k, h⟩ := Fin.ext hj
    subst hjk
    by_cases hi : i = ⟨k, h⟩
    · subst hi
      simp [hp]
    · simp [hi]
      field_simp
  · have hjk : j ≠ ⟨k, h⟩ := fun e => by rw [e] at hj; exact lt_irrefl _ hj
    have hj1 : ¬ j.val < k + 1 := by omega
    have hj0 : ¬ j.val < k := by omega
    by_cases hi : i = ⟨k, h⟩
    · subst hi
      simp [hj0, hj1, hjk]
    · simp [hj0, hj1, hjk, hi]
      ring

theorem inversePart_step {n : Nat} (k : Nat) (h : k < n) (b : Matrix (Fin n) (Fin n) ℚ) :
    inversePart (k + 1) (gaussJordanStep ⟨k, h⟩ b)
      = pivotRows ⟨k, h⟩ (b ⟨k, h⟩ ⟨k, h⟩) (fun i => b i ⟨k, h⟩) (inversePart k b) := by
  ext i j
  simp only [inversePart, pivotRows, gaussJordanStep, lt_self_iff_false, if_false]
  rcases Nat.lt_trichotomy j.val k with hj | hj | hj
  · have hjk : j ≠ ⟨k, h⟩ := fun e => by rw [e] at hj; exact lt_irrefl _ hj
    have hj1 : j.val < k + 1 := by omega
    by_cases hi : i = ⟨k, h⟩
    · subst hi
      simp [hj, hj1, hjk]
    · simp [hj, hj1, hjk, hi]
      ring
  · have hjk : j = ⟨k, h⟩ := Fin.ext hj
    subst hjk
    by_cases hi : i = ⟨k, h⟩
    · subst hi
      simp
    · simp [hi]
      ring
  · have hjk : j ≠ ⟨k, h⟩ := fun e => by rw [e] at hj; exact lt_irrefl _ hj
    have hkj : (⟨k, h⟩ : Fin n) ≠ j := fun e => hjk e.symm
    have hj1 : ¬ j.val < k + 1 := by omega
    have hj0 : ¬ j.val < k := by omega
    by_cases hi : i = ⟨k, h⟩
    · subst hi
      simp [hj0, hj1, hkj]
    · simp [hj0, hj1, hkj, hi]


theorem gaussJordanStep_apply_of_ne {n : Nat} (kk : Fin n) (b : Matrix (Fin n) (Fin n) ℚ)
    (i j : Fin n) (hi : i ≠ kk) (hj : j ≠ kk) :
    gaussJordanStep kk b i j = b i j - b i kk * (b kk j / b kk kk) := by
  simp [gaussJordanStep, hi, hj]

theorem dominantFrom_lt_pivot {n : Nat} (μ : ℚ) (k : Nat) (h : k < n)
    (b : Matrix (Fin n) (Fin n) ℚ) (hd : dominantFrom μ k b) : μ < |b ⟨k, h⟩ ⟨k, h⟩| := by
  have h1 := hd ⟨k, h⟩ le_rfl
  have h2 : (0 : ℚ) ≤ ∑ j ∈ Finset.univ.filter
      (fun j : Fin n => k ≤ j.val ∧ j ≠ (⟨k, h⟩ : Fin n)), |b ⟨k, h⟩ j| :=
    Finset.sum_nonneg fun j _ => abs_nonneg _
  linarith

theorem dominantFrom_pivot_ne_zero {n : Nat} (μ : ℚ) (hμ : 0 ≤ μ) (k : Nat) (h : k < n)
    (b : Matrix (Fin n) (Fin n) ℚ) (hd : dominantFrom μ k b) : b ⟨k, h⟩ ⟨k, h⟩ ≠ 0 := by
  have h1 := dominantFrom_lt_pivot μ k h b hd
  intro h0
  rw [h0, abs_zero] at h1
  exact absurd (lt_of_le_of_lt hμ h1) (lt_irrefl _)

theorem elimination_bound (μ a c s e P d x y : ℚ) (hμ : 0 ≤ μ) (hc : 0 ≤ c) (hP : 0 < P)
    (hrow : μ + (c + a) < d) (hpiv : μ + (e + s) < P)
    (hx : x ≤ a + c * s / P) (hy : d - c * e / P ≤ y) : μ + x < y := by
  have h1 : c * (s + e) / P ≤ c := by
    rw [div_le_iff₀ hP]
    have : s + e ≤ P := by linarith
    exact mul_le_mul_of_nonneg_left this hc
  have h2 : c * (s + e) / P = c * s / P + c * e / P := by ring
  linarith

theorem dominantFrom_step {n : Nat} (μ : ℚ) (hμ : 0 ≤ μ) (k : Nat) (h : k < n)
    (b : Matrix (Fin n) (Fin n) ℚ) (hd : dominantFrom μ k b) :
    dominantFrom μ (k + 1) (gaussJordanStep ⟨k, h⟩ b) := by
  intro i hi
  have hik : i ≠ ⟨k, h⟩ := fun e => by rw [e] at hi; simp at hi
  have hp : b ⟨k, h⟩ ⟨k, h⟩ ≠ 0 := dominantFrom_pivot_ne_zero μ hμ k h b hd
  have hP : 0 < |b ⟨k, h⟩ ⟨k, h⟩| := abs_pos.2 hp
  -- the rows i and k of the matrix before the step
  have hseti : Finset.univ.filter (fun j : Fin n => k ≤ j.val ∧ j ≠ i)
      = insert (⟨k, h⟩ : Fin n)
          (Finset.univ.filter (fun j : Fin n => k + 1 ≤ j.val ∧ j ≠ i)) := by
    ext j
    simp only [Finset.mem_filter, Finset.mem_univ, true_and, Finset.mem_insert]
    constructor
    · rintro ⟨h1, h2⟩
      by_cases hj : j = ⟨k, h⟩
      · exact Or.inl hj
      · refine Or.inr ⟨?_, h2⟩
        have : j.val ≠ k := fun e => hj (Fin.ext e)
        omega
    · rintro (hj | ⟨h1, h2⟩)
      · subst hj
        exact ⟨le_rfl, fun e => hik e.symm⟩
      · exact ⟨by omega, h2⟩
  have hsetk : Finset.univ.filter (fun j : Fin n => k ≤ j.val ∧ j ≠ (⟨k, h⟩ : Fin n))
      = insert i (Finset.univ.filter (fun j : Fin n => k + 1 ≤ j.val ∧ j ≠ i)) := by
    ext j
    simp only [Finset.mem_filter, Finset.mem_univ, true_and, Finset.mem_insert]
    constructor
    · rintro ⟨h1, h2⟩
      by_cases hj : j = i
      · exact Or.inl hj
      · refine Or.inr ⟨?_, hj⟩
        have : j.val ≠ k := fun e => h2 (Fin.ext e)
        omega
    · rintro (hj | ⟨h1, h2⟩)
      · subst hj
        exact ⟨by omega, hik⟩
      · refine ⟨by omega, fun e => ?_⟩
        rw [e] at h1
        simp at h1
  have hnotk : (⟨k, h⟩ : Fin n) ∉
      Finset.univ.filter (fun j : Fin n => k + 1 ≤ j.val ∧ j ≠ i) := by
    simp
  have hnoti : i ∉ Finset.univ.filter (fun j : Fin n => k + 1 ≤ j.val ∧ j ≠ i) := by
    simp
  have rowi := hd i (by omega)
  have rowk := hd ⟨k, h⟩ le_rfl
  rw [hseti, Finset.sum_insert hnotk] at rowi
  rw [hsetk, Finset.sum_insert hnoti] at rowk
  -- the entries after the step
  have hsum : ∑ j ∈ Finset.univ.filter (fun j : Fin n => k + 1 ≤ j.val ∧ j ≠ i),
        |gaussJordanStep ⟨k, h⟩ b i j|
      ≤ ∑ j ∈ Finset.univ.filter (fun j : Fin n => k + 1 ≤ j.val ∧ j ≠ i), |b i j|
        + |b i ⟨k, h⟩| * (∑ j ∈ Finset.univ.filter
            (fun j : Fin n => k + 1 ≤ j.val ∧ j ≠ i), |b ⟨k, h⟩ j|) / |b ⟨k, h⟩ ⟨k, h⟩| := by
    rw [Finset.mul_sum, Finset.sum_div, ← Finset.sum_add_distrib]
    refine Finset.sum_le_sum fun j hj => ?_
    have hjk : j ≠ ⟨k, h⟩ := by
      intro e
      rw [e] at hj
      exact hnotk hj
    rw [gaussJordanStep_apply_of_ne _ _ _ _ hik hjk]
    calc |b i j - b i ⟨k, h⟩ * (b ⟨k, h⟩ j / b ⟨k, h⟩ ⟨k, h⟩)|
        ≤ |b i j| + |b i ⟨k, h⟩ * (b ⟨k, h⟩ j / b ⟨k, h⟩ ⟨k, h⟩)| := abs_sub _ _
      _ = |b i j| + |b i ⟨k, h⟩| * |b ⟨k, h⟩ j| / |b ⟨k, h⟩ ⟨k, h⟩| := by
          rw [abs_mul, abs_div, mul_div_assoc]
  have hdiag : |b i i| - |b i ⟨k, h⟩| * |b ⟨k, h⟩ i| / |b ⟨k, h⟩ ⟨k, h⟩|
      ≤ |gaussJordanStep ⟨k, h⟩ b i i| := by
    rw [gaussJordanStep_apply_of_ne _ _ _ _ hik hik]
    calc |b i i| - |b i ⟨k, h⟩| * |b ⟨k, h⟩ i| / |b ⟨k, h⟩ ⟨k, h⟩|
        = |b i i| - |b i ⟨k, h⟩ * (b ⟨k, h⟩ i / b ⟨k, h⟩ ⟨k, h⟩)| := by
          rw [abs_mul, abs_div, mul_div_assoc]
      _ ≤ |b i i - b i ⟨k, h⟩ * (b ⟨k, h⟩ i / b ⟨k, h⟩ ⟨k, h⟩)| :=
          abs_sub_abs_le_abs_sub _ _
  exact elimination_bound μ _ _ _ _ _ _ _ _ hμ (abs_nonneg _) hP rowi rowk hsum hdiag

theorem gaussJordanLoop_invariant {n : Nat} (μ : ℚ) (hμ : 0 ≤ μ)
    (a : Matrix (Fin n) (Fin n) ℚ) (hd : dominantFrom μ 0 a) (k : Nat) (hk : k ≤ n) :
    dominantFrom μ k (gaussJordanLoop a k) ∧
      reducedPart k (gaussJordanLoop a k) = inversePart k (gaussJordanLoop a k) * a := by
  induction k with
  | zero =>
    refine ⟨hd, ?_⟩
    have h1 : reducedPart 0 (gaussJordanLoop a 0) = a := by
      ext i j
      simp [reducedPart, gaussJordanLoop]
    have h2 : inversePart 0 (gaussJordanLoop a 0) = 1 := by
      ext i j
      simp [inversePart, Matrix.one_apply]
    rw [h1, h2, one_mul]
  | succ k ih =>
    have hlt : k < n := hk
    obtain ⟨ihd, ihm⟩ := ih (le_of_lt hlt)
    have hp := dominantFrom_pivot_ne_zero μ hμ k hlt _ ihd
    simp only [gaussJordanLoop, hlt, dif_pos]
    refine ⟨dominantFrom_step μ hμ k hlt _ ihd, ?_⟩
    rw [reducedPart_step k hlt _ hp, inversePart_step k hlt, ihm, pivotRows_mul]

theorem dominantFrom_zero_iff {n : Nat} (μ : ℚ) (a : Matrix (Fin n) (Fin n) ℚ) :
    dominantFrom μ 0 a ↔ ∀ i, μ + ∑ j ∈ Finset.univ.erase i, |a i j| < |a i i| := by
  have hset : ∀ i : Fin n,
      Finset.univ.filter (fun j : Fin n => 0 ≤ j.val ∧ j ≠ i) = Finset.univ.erase i := by
    intro i
    ext j
    simp
  constructor
  · intro h i
    rw [← hset i]
    exact h i (Nat.zero_le _)
  · intro h i _
    rw [hset i]
    exact h i

theorem gaussJordan_mul_self {n : Nat} (a : Matrix (Fin n) (Fin n) ℚ)
    (hd : ∀ i, ∑ j ∈ Finset.univ.erase i, |a i j| < |a i i|) :
    gaussJordan a * a = 1 := by
  have hd0 : dominantFrom 0 0 a := (dominantFrom_zero_iff 0 a).2 fun i => by
    rw [zero_add]
    exact hd i
  obtain ⟨-, hm⟩ := gaussJordanLoop_invariant 0 le_rfl a hd0 n le_rfl
  have h1 : reducedPart n (gaussJordanLoop a n) = 1 := by
    ext i j
    simp [reducedPart, Matrix.one_apply]
  have h2 : inversePart n (gaussJordanLoop a n) = gaussJordanLoop a n := by
    ext i j
    simp [inversePart]
  rw [h1, h2] at hm
  exact hm.symm

theorem mul_gaussJordan {n : Nat} (a : Matrix (Fin n) (Fin n) ℚ)
    (hd : ∀ i, ∑ j ∈ Finset.univ.erase i, |a i j| < |a i i|) :
    a * gaussJordan a = 1 :=
  Matrix.mul_eq_one_comm.1 (gaussJordan_mul_self a hd)

theorem gaussJordanLoop_pivot_floor {n : Nat} (floor : ℚ) (a : Matrix (Fin n) (Fin n) ℚ)
    (hm : ∀ i, floor + ∑ j ∈ Finset.univ.erase i, |a i j| ≤ |a i i|) (k : Nat) (h : k < n) :
    floor ≤ |gaussJordanLoop a k ⟨k, h⟩ ⟨k, h⟩| := by
  refine le_of_forall_lt fun μ hμ => ?_
  by_cases h0 : 0 ≤ μ
  · have hd : dominantFrom μ 0 a := (dominantFrom_zero_iff μ a).2 fun i => by
      have := hm i
      linarith
    exact dominantFrom_lt_pivot μ k h _
      (gaussJordanLoop_invariant μ h0 a hd k (le_of_lt h)).1
  · exact lt_of_lt_of_le (not_le.1 h0) (abs_nonneg _)

theorem gaussJordan_eq_inv {n : Nat} (a : Matrix (Fin n) (Fin n) ℚ)
    (hd : ∀ i, ∑ j ∈ Finset.univ.erase i, |a i j| < |a i i|) :
    gaussJordan a = a⁻¹ :=
  (Matrix.inv_eq_left_inv (gaussJordan_mul_self a hd)).symm

theorem pairCoeff_nonneg {n m : Nat} (wordHash : word → Nat) (phaseNames : Fin n → word)
    (t : HashPtrTable (Fin m → ℚ))
    (ht : ∀ k K, t.find wordHash k = some K → ∀ ci, 0 ≤ K ci) (i j : Fin n) (ci : Fin m) :
    0 ≤ pairCoeff wordHash phaseNames t i j ci := by
  unfold pairCoeff
  cases hfind : t.find wordHash ⟨phaseNames i, phaseNames j⟩ with
  | none => exact le_rfl
  | some K => exact ht _ K hfind ci

theorem assembleADVs_margin {n m : Nat} (wordHash : word → Nat) (floor : ℚ)
    (phaseNames : Fin n → word) (As : Fin n → Fin m → ℚ) (Kds_ Vms_ : HashPtrTable (Fin m → ℚ))
    (hfloor : 0 < floor)
    (hKd : ∀ k K, Kds_.find wordHash k = some K → ∀ ci, 0 ≤ K ci)
    (hVm : ∀ k K, Vms_.find wordHash k = some K → ∀ ci, 0 ≤ K ci) (ci : Fin m) (i : Fin n) :
    floor + ∑ j ∈ Finset.univ.erase i,
        |cellMatrix (assembleADVs wordHash floor phaseNames As Kds_ Vms_) ci i j|
      ≤ |cellMatrix (assembleADVs wordHash floor phaseNames As Kds_ Vms_) ci i i| := by
  have hoff : ∑ j ∈ Finset.univ.erase i,
        |cellMatrix (assembleADVs wordHash floor phaseNames As Kds_ Vms_) ci i j|
      = ∑ j ∈ Finset.univ.erase i, pairCoeff wordHash phaseNames Kds_ i j ci := by
    refine Finset.sum_congr rfl fun j hj => ?_
    have hij : i ≠ j := fun e => (Finset.ne_of_mem_erase hj) e.symm
    simp only [cellMatrix, assembleADVs, hij, if_false, abs_neg]
    exact abs_of_nonneg (pairCoeff_nonneg wordHash phaseNames Kds_ hKd i j ci)
  have hle : ∑ j ∈ Finset.univ.erase i, pairCoeff wordHash phaseNames Kds_ i j ci
      ≤ ∑ j ∈ Finset.univ.erase i, (pairCoeff wordHash phaseNames Kds_ i j ci
          + pairCoeff wordHash phaseNames Vms_ i j ci) :=
    Finset.sum_le_sum fun j _ =>
      le_add_of_nonneg_right (pairCoeff_nonneg wordHash phaseNames Vms_ hVm i j ci)
  have hmax : floor ≤ max (As i ci) floor := le_max_right _ _
  have hnn : 0 ≤ ∑ j ∈ Finset.univ.erase i, pairCoeff wordHash phaseNames Kds_ i j ci :=
    Finset.sum_nonneg fun j _ => pairCoeff_nonneg wordHash phaseNames Kds_ hKd i j ci
  rw [hoff]
  simp only [cellMatrix, assembleADVs, if_true]
  rw [abs_of_pos (by linarith)]
  linarith

theorem assembleADVs_dominant {n m : Nat} (wordHash : word → Nat) (floor : ℚ)
    (phaseNames : Fin n → word) (As : Fin n → Fin m → ℚ) (Kds_ Vms_ : HashPtrTable (Fin m → ℚ))
    (hfloor : 0 < floor)
    (hKd : ∀ k K, Kds_.find wordHash k = some K → ∀ ci, 0 ≤ K ci)
    (hVm : ∀ k K, Vms_.find wordHash k = some K → ∀ ci, 0 ≤ K ci) (ci : Fin m) (i : Fin n) :
    ∑ j ∈ Finset.univ.erase i, |assembleADVs wordHash floor phaseNames As Kds_ Vms_ i j ci|
      < |assembleADVs wordHash floor phaseNames As Kds_ Vms_ i i ci| := by
  have h := assembleADVs_margin wordHash floor phaseNames As Kds_ Vms_ hfloor hKd hVm ci i
  simp only [cellMatrix] at h
  linarith

theorem assembleADVs_pivot_floor {n m : Nat} (wordHash : word → Nat) (floor : ℚ)
    (phaseNames : Fin n → word) (As : Fin n → Fin m → ℚ) (Kds_ Vms_ : HashPtrTable (Fin m → ℚ))
    (hfloor : 0 < floor)
    (hKd : ∀ k K, Kds_.find wordHash k = some K → ∀ ci, 0 ≤ K ci)
    (hVm : ∀ k K, Vms_.find wordHash k = some K → ∀ ci, 0 ≤ K ci) (ci : Fin m)
    (k : Nat) (h : k < n) :
    floor ≤ |gaussJordanLoop
      (cellMatrix (assembleADVs wordHash floor phaseNames As Kds_ Vms_) ci) k ⟨k, h⟩ ⟨k, h⟩| :=
  gaussJordanLoop_pivot_floor floor _
    (assembleADVs_margin wordHash floor phaseNames As Kds_ Vms_ hfloor hKd hVm ci) k h

/-! ## Lemmas on the patch loop -/

theorem phaseModel.fixedFlux_of {phase : phaseModel} {patchi : Nat} {q : PatchField ℚ}
    (hs : phase.stationary = false) (hq : phase.phi.boundaryField[patchi]? = some q)
    (hf : q.isAfixedValue = true) : phase.fixedFlux patchi = true := by
  simp [phaseModel.fixedFlux, hs, hq, hf]

theorem phaseModel.fixedFlux_eq_false_iff (phase : phaseModel) (patchi : Nat) :
    phase.fixedFlux patchi = false ↔
      ¬ (phase.stationary = false ∧ ∃ q,
          phase.phi.boundaryField[patchi]? = some q ∧ q.isAfixedValue = true) := by
  unfold phaseModel.fixedFlux
  cases hs : phase.stationary <;> cases hq : phase.phi.boundaryField[patchi]? with
  | none => simp
  | some q => cases hf : q.isAfixedValue <;> simp [hf]

theorem PatchField.assign_zero_values {α : Type} [Zero α] (pf : PatchField α) :
    ∀ v ∈ (pf.assign (0 : α)).values, v = 0 := by
  intro v hv
  exact List.eq_of_mem_replicate hv


theorem correctFixedFluxBCsLoop_length {α : Type} [Zero α] (interface : phaseInterface)
    (bf : List (PatchField α)) (start : Nat) :
    (correctFixedFluxBCsLoop interface start bf).length = bf.length := by
  induction bf generalizing start with
  | nil => rfl
  | cons pf rest ih => simp [correctFixedFluxBCsLoop, ih]

theorem correctFixedFluxBCsLoop_getElem? {α : Type} [Zero α] (interface : phaseInterface)
    (bf : List (PatchField α)) (start k : Nat) :
    (correctFixedFluxBCsLoop interface start bf)[k]? =
      (bf[k]?).map (fun pf =>
        if interface.fixedFlux (start + k) then pf.assign 0 else pf) := by
  induction bf generalizing start k with
  | nil => simp [correctFixedFluxBCsLoop]
  | cons pf rest ih =>
    cases k with
    | zero => simp [correctFixedFluxBCsLoop]
    | succ k =>
      simp only [correctFixedFluxBCsLoop, List.getElem?_cons_succ]
      rw [ih (start + 1) k]
      have : start + 1 + k = start + (k + 1) := by omega
      rw [this]

theorem correctFixedFluxBCs_getElem? {α : Type} [Zero α] (interface : phaseInterface)
    (tfield : GeometricField α) (patchi : Nat) :
    (correctFixedFluxBCs interface tfield).boundaryField[patchi]? =
      (tfield.boundaryField[patchi]?).map (fun pf =>
        if interface.fixedFlux patchi then pf.assign 0 else pf) := by
  simp [correctFixedFluxBCs, correctFixedFluxBCsLoop_getElem?]

theorem correctFixedFluxBCs_of_fixedFlux {α : Type} [Zero α] (interface : phaseInterface)
    (tfield : GeometricField α) {patchi : Nat} {pf : PatchField α}
    (hpatch : tfield.boundaryField[patchi]? = some pf)
    (hc : interface.fixedFlux patchi = true) :
    (correctFixedFluxBCs interface tfield).boundaryField[patchi]? = some (pf.assign 0) := by
  rw [correctFixedFluxBCs_getElem?, hpatch]
  simp [hc]

theorem correctFixedFluxBCsLoop_congr {α : Type} [Zero α] (i1 i2 : phaseInterface)
    (h : ∀ patchi, i1.fixedFlux patchi = i2.fixedFlux patchi)
    (bf : List (PatchField α)) (start : Nat) :
    correctFixedFluxBCsLoop i1 start bf = correctFixedFluxBCsLoop i2 start bf := by
  induction bf generalizing start with
  | nil => rfl
  | cons pf rest ih => simp [correctFixedFluxBCsLoop, ih, h]

theorem correctFixedFluxBCsLoop_id {α : Type} [Zero α] (interface : phaseInterface)
    (h : ∀ patchi, interface.fixedFlux patchi = false)
    (bf : List (PatchField α)) (start : Nat) :
    correctFixedFluxBCsLoop interface start bf = bf := by
  induction bf generalizing start with
  | nil => rfl
  | cons pf rest ih => simp [correctFixedFluxBCsLoop, ih, h]

/-! ## Fixed-flux zeroing: `correctFixedFluxBCs` -/

/-- Claim C1: in the field returned by correctFixedFluxBCs, a boundary patch on
which phase1 is non-stationary with a fixed-value flux, or phase2 is
non-stationary with a fixed-value flux, keeps its type and size and is zero on
every face. Each disjunct constrains one phase only, so a non-stationary phase
with a fixed flux on the patch zeroes it whatever the other phase is. -/
theorem correctFixedFluxBCs_zeroes {α : Type} [Zero α]
    (interface : phaseInterface) (tfield : GeometricField α)
    (patchi : Nat) (pf : PatchField α)
    (hpatch : tfield.boundaryField[patchi]? = some pf)
    (hcond :
      (interface.phase1.stationary = false ∧ ∃ q,
          interface.phase1.phi.boundaryField[patchi]? = some q ∧ q.isAfixedValue = true) ∨
      (interface.phase2.stationary = false ∧ ∃ q,
          interface.phase2.phi.boundaryField[patchi]? = some q ∧ q.isAfixedValue = true)) :
    ∃ r, (correctFixedFluxBCs interface tfield).boundaryField[patchi]? = some r ∧
      r.isAfixedValue = pf.isAfixedValue ∧ r.values.length = pf.values.length ∧
      ∀ v ∈ r.values, v = 0 := by
  have hc : interface.fixedFlux patchi = true := by
    rcases hcond with ⟨hs, q, hq, hf⟩ | ⟨hs, q, hq, hf⟩
    · simp [phaseInterface.fixedFlux, phaseModel.fixedFlux_of hs hq hf]
    · simp [phaseInterface.fixedFlux, phaseModel.fixedFlux_of hs hq hf]
  exact ⟨pf.assign 0, correctFixedFluxBCs_of_fixedFlux interface tfield hpatch hc, rfl,
    by simp [PatchField.assign], PatchField.assign_zero_values pf⟩

/-- Witness for C1: phase1 moves and has a fixed flux on patch 0, phase2 is
stationary; the correction field carries 5 and 7 on patch 0. -/
theorem correctFixedFluxBCs_zeroes_witness :
    ∃ r, (correctFixedFluxBCs exampleInterfaceMoving exampleCorrection).boundaryField[0]?
        = some r ∧
      r.isAfixedValue = (⟨false, [5, 7]⟩ : PatchField ℤ).isAfixedValue ∧
      r.values.length = (⟨false, [5, 7]⟩ : PatchField ℤ).values.length ∧
      ∀ v ∈ r.values, v = 0 :=
  correctFixedFluxBCs_zeroes exampleInterfaceMoving exampleCorrection 0 ⟨false, [5, 7]⟩ rfl
    (Or.inl ⟨rfl, ⟨true, [1, 1]⟩, rfl, rfl⟩)

/-- Claim C2: correctFixedFluxBCs never changes the internal values nor the
number of patches, and it returns unchanged every patch on which neither phase
is both non-stationary and fixed-flux; in particular the whole field when both
phases are stationary, and every patch on which neither phase has a fixed-value
flux condition. -/
theorem correctFixedFluxBCs_frame {α : Type} [Zero α]
    (interface : phaseInterface) (tfield : GeometricField α) :
    (correctFixedFluxBCs interface tfield).internal = tfield.internal ∧
    (correctFixedFluxBCs interface tfield).boundaryField.length
      = tfield.boundaryField.length ∧
    (∀ patchi : Nat,
      ¬ (interface.phase1.stationary = false ∧ ∃ q,
          interface.phase1.phi.boundaryField[patchi]? = some q ∧ q.isAfixedValue = true) →
      ¬ (interface.phase2.stationary = false ∧ ∃ q,
          interface.phase2.phi.boundaryField[patchi]? = some q ∧ q.isAfixedValue = true) →
      (correctFixedFluxBCs interface tfield).boundaryField[patchi]?
        = tfield.boundaryField[patchi]?) ∧
    (interface.phase1.stationary = true → interface.phase2.stationary = true →
      correctFixedFluxBCs interface tfield = tfield) ∧
    (∀ patchi : Nat,
      (∀ q, interface.phase1.phi.boundaryField[patchi]? = some q → q.isAfixedValue = false) →
      (∀ q, interface.phase2.phi.boundaryField[patchi]? = some q → q.isAfixedValue = false) →
      (correctFixedFluxBCs interface tfield).boundaryField[patchi]?
        = tfield.boundaryField[patchi]?) := by
  have keep : ∀ patchi, interface.fixedFlux patchi = false →
      (correctFixedFluxBCs interface tfield).boundaryField[patchi]?
        = tfield.boundaryField[patchi]? := by
    intro patchi hc
    rw [correctFixedFluxBCs_getElem?]
    cases tfield.boundaryField[patchi]? <;> simp [hc]
  refine ⟨rfl, ?_, ?_, ?_, ?_⟩
  · simp [correctFixedFluxBCs, correctFixedFluxBCsLoop_length]
  · intro patchi h1 h2
    apply keep
    simp only [phaseInterface.fixedFlux, Bool.or_eq_false_iff]
    exact ⟨(phaseModel.fixedFlux_eq_false_iff _ _).2 h1,
      (phaseModel.fixedFlux_eq_false_iff _ _).2 h2⟩
  · intro h1 h2
    have hall : ∀ patchi, interface.fixedFlux patchi = false := by
      intro patchi
      simp [phaseInterface.fixedFlux, phaseModel.fixedFlux, h1, h2]
    cases tfield with
    | mk internal boundaryField =>
      simp [correctFixedFluxBCs, correctFixedFluxBCsLoop_id interface hall]
  · intro patchi h1 h2
    apply keep
    simp only [phaseInterface.fixedFlux, Bool.or_eq_false_iff]
    refine ⟨(phaseModel.fixedFlux_eq_false_iff _ _).2 ?_,
      (phaseModel.fixedFlux_eq_false_iff _ _).2 ?_⟩
    · rintro ⟨-, q, hq, hf⟩
      rw [h1 q hq] at hf
      exact Bool.false_ne_true hf
    · rintro ⟨-, q, hq, hf⟩
      rw [h2 q hq] at hf
      exact Bool.false_ne_true hf

/-- Counterexample for C3: phase1 carries a fixed-value flux on patch 0 but is
stationary, phase2 has no fixed flux there; the returned field still holds the
non-zero values 5 and 7 on patch 0. -/
theorem correctFixedFluxBCs_fixed_stationary_kept :
    (∃ q, exampleInterfaceStationary.phase1.phi.boundaryField[0]? = some q ∧
        q.isAfixedValue = true) ∧
    (correctFixedFluxBCs exampleInterfaceStationary exampleCorrection).boundaryField[0]?
        = some ⟨false, [5, 7]⟩ ∧
    ¬ (∀ v ∈ ([5, 7] : List ℤ), v = 0) :=
  ⟨⟨⟨true, [1, 1]⟩, rfl, rfl⟩, rfl, by decide⟩

/-- Claim C3 (amended): a boundary patch that carries a fixed-value flux
condition for at least one of the two phases of the interface, that phase being
not stationary, is zero on every face in the field returned by
correctFixedFluxBCs. -/
theorem correctFixedFluxBCs_moving_fixed_zeroed {α : Type} [Zero α]
    (interface : phaseInterface) (tfield : GeometricField α)
    (patchi : Nat) (pf : PatchField α)
    (hpatch : tfield.boundaryField[patchi]? = some pf)
    (phase : phaseModel)
    (hphase : phase = interface.phase1 ∨ phase = interface.phase2)
    (q : PatchField ℚ)
    (hq : phase.phi.boundaryField[patchi]? = some q)
    (hfixed : q.isAfixedValue = true)
    (hmoving : phase.stationary = false) :
    ∃ r, (correctFixedFluxBCs interface tfield).boundaryField[patchi]? = some r ∧
      r.values = List.replicate pf.values.length 0 := by
  have hp := phaseModel.fixedFlux_of hmoving hq hfixed
  have hc : interface.fixedFlux patchi = true := by
    rcases hphase with h | h
    · rw [h] at hp
      simp [phaseInterface.fixedFlux, hp]
    · rw [h] at hp
      simp [phaseInterface.fixedFlux, hp]
  exact ⟨pf.assign 0, correctFixedFluxBCs_of_fixedFlux interface tfield hpatch hc, rfl⟩

/-- Witness for C3 (amended): the moving phase1 of the example interface has a
fixed flux on patch 0. -/
theorem correctFixedFluxBCs_moving_fixed_zeroed_witness :
    ∃ r, (correctFixedFluxBCs exampleInterfaceMoving exampleCorrection).boundaryField[0]?
        = some r ∧
      r.values = List.replicate (⟨false, [5, 7]⟩ : PatchField ℤ).values.length 0 :=
  correctFixedFluxBCs_moving_fixed_zeroed exampleInterfaceMoving exampleCorrection 0
    ⟨false, [5, 7]⟩ rfl exampleInterfaceMoving.phase1 (Or.inl rfl) ⟨true, [1, 1]⟩ rfl rfl rfl

/-- Claim C4: correctFixedFluxBCs does not depend on the order of the two
phases of the interface. -/
theorem correctFixedFluxBCs_phase_order {α : Type} [Zero α]
    (A B : phaseModel) (f : GeometricField α) :
    correctFixedFluxBCs ⟨A, B⟩ f = correctFixedFluxBCs ⟨B, A⟩ f := by
  have h : ∀ patchi, (⟨A, B⟩ : phaseInterface).fixedFlux patchi
      = (⟨B, A⟩ : phaseInterface).fixedFlux patchi := by
    intro patchi
    simp [phaseInterface.fixedFlux, Bool.or_comm]
  simp [correctFixedFluxBCs, correctFixedFluxBCsLoop_congr _ _ h]

/-! ## Inversion of the coefficient matrix -/

/-- Claim C5: for every number of phases (2 to 6 in particular) and every
coefficient matrix assembled by the rule of the subsystem that is strictly
row diagonally dominant in every cell (or face), the in-place invADVs replaces
the matrix by a matrix M such that A·M is the identity in every cell. -/
theorem invADVs_inverse {n m : Nat} (wordHash : word → Nat) (floor : ℚ)
    (phaseNames : Fin n → word) (As : Fin n → Fin m → ℚ) (Kds_ Vms_ : HashPtrTable (Fin m → ℚ))
    (hdom : ∀ ci i,
      ∑ j ∈ Finset.univ.erase i, |assembleADVs wordHash floor phaseNames As Kds_ Vms_ i j ci|
        < |assembleADVs wordHash floor phaseNames As Kds_ Vms_ i i ci|)
    (ci : Fin m) :
    cellMatrix (assembleADVs wordHash floor phaseNames As Kds_ Vms_) ci
      * cellMatrix (invADVs (assembleADVs wordHash floor phaseNames As Kds_ Vms_)) ci = 1 := by
  have h := mul_gaussJordan
    (cellMatrix (assembleADVs wordHash floor phaseNames As Kds_ Vms_) ci) (hdom ci)
  have hinv : cellMatrix (invADVs (assembleADVs wordHash floor phaseNames As Kds_ Vms_)) ci
      = gaussJordan (cellMatrix (assembleADVs wordHash floor phaseNames As Kds_ Vms_) ci) := by
    ext i j
    rfl
  rw [hinv]
  exact h

/-- Witness for C5: two phases, gas and liquid, one cell; central coefficients
1 and 0, floor 1/100, drag coefficient 2: the assembled matrix has the rows
(3, -2) and (-2, 201/100). -/
theorem invADVs_inverse_witness :
    cellMatrix (assembleADVs exampleWordHash (1 / 100) examplePhaseNames exampleAs
        exampleKds exampleVms) 0
      * cellMatrix (invADVs (assembleADVs exampleWordHash (1 / 100) examplePhaseNames exampleAs
        exampleKds exampleVms)) 0 = 1 :=
  invADVs_inverse exampleWordHash (1 / 100) examplePhaseNames exampleAs exampleKds exampleVms
    (by
      intro ci i
      have h0 : Finset.univ.erase (0 : Fin 2) = {1} := by decide
      have h1 : Finset.univ.erase (1 : Fin 2) = {0} := by decide
      have hK01 : pairCoeff exampleWordHash examplePhaseNames exampleKds 0 1 ci = 2 := rfl
      have hK10 : pairCoeff exampleWordHash examplePhaseNames exampleKds 1 0 ci = 2 := rfl
      have hV01 : pairCoeff exampleWordHash examplePhaseNames exampleVms 0 1 ci = 0 := rfl
      have hV10 : pairCoeff exampleWordHash examplePhaseNames exampleVms 1 0 ci = 0 := rfl
      fin_cases i
      · simp [h0, assembleADVs, hK01, hV01, exampleAs]
        norm_num
      · simp [h1, assembleADVs, hK10, hV10, exampleAs]
        rw [abs_of_pos (by norm_num)]
        norm_num)
    0

/-- Claim C6: for a single phase, invADVs returns in every cell exactly the
reciprocal of the floored central coefficient of that phase. -/
theorem invADVs_single_phase {m : Nat} (wordHash : word → Nat) (floor : ℚ)
    (phaseNames : Fin 1 → word) (As : Fin 1 → Fin m → ℚ) (Kds_ Vms_ : HashPtrTable (Fin m → ℚ))
    (ci : Fin m) :
    invADVs (assembleADVs wordHash floor phaseNames As Kds_ Vms_) 0 0 ci
      = 1 / max (As 0 ci) floor := by
  have herase : Finset.univ.erase (0 : Fin 1) = ∅ := by decide
  simp [invADVs, gaussJordan, gaussJordanLoop, gaussJordanStep, cellMatrix, assembleADVs,
    herase]

/-! ## Implicit drag in `momentumTransfer` -/

/-- Claim C8: the key built from (A,B) equals the key built from (B,A), both
have the same hash, and a lookup in any per-pair table (whatever the type of
its entries: drag, virtual mass, lift, wall lubrication, turbulent dispersion
models or cached Kd fields) returns the same entry for either ordering. -/
theorem phaseInterfaceKey_symmetric (wordHash : word → Nat) (A B : word) :
    (phaseInterfaceKey.mk A B).equal ⟨B, A⟩ = true ∧
    (phaseInterfaceKey.mk A B).hash wordHash = (phaseInterfaceKey.mk B A).hash wordHash ∧
    ∀ (T : Type) (t : HashPtrTable T), t.find wordHash ⟨A, B⟩ = t.find wordHash ⟨B, A⟩ := by
  refine ⟨?_, phaseInterfaceKey.hash_swap wordHash A B, fun T t => t.find_swap wordHash A B⟩
  rw [← phaseInterfaceKey.equal_swap]
  exact phaseInterfaceKey.equal_self _

/-- Claim C9: of two consecutive get-or-compute requests for the same pair key
without a clear in between, the second returns the same field as the first and
leaves the cache and the call counter of the drag models as the first left
them; over both requests a drag model is evaluated at most once, and exactly
once when the key was not cached before. -/
theorem KdCache_getOrCompute_twice {m : Nat} (wordHash : word → Nat)
    (dragModels_ : HashPtrTable (blendedDragModel m)) (k : phaseInterfaceKey)
    (c : KdCache m) :
    (KdCache.getOrCompute wordHash dragModels_ k
        (KdCache.getOrCompute wordHash dragModels_ k c).2).1
      = (KdCache.getOrCompute wordHash dragModels_ k c).1 ∧
    (KdCache.getOrCompute wordHash dragModels_ k
        (KdCache.getOrCompute wordHash dragModels_ k c).2).2.evaluations
      = (KdCache.getOrCompute wordHash dragModels_ k c).2.evaluations ∧
    (KdCache.getOrCompute wordHash dragModels_ k
        (KdCache.getOrCompute wordHash dragModels_ k c).2).2.Kds_.table
      = (KdCache.getOrCompute wordHash dragModels_ k c).2.Kds_.table ∧
    (KdCache.getOrCompute wordHash dragModels_ k c).2.evaluations ≤ c.evaluations + 1 ∧
    (∀ model, c.Kds_.find wordHash k = none → dragModels_.find wordHash k = some model →
      (KdCache.getOrCompute wordHash dragModels_ k c).1 = some model.K ∧
      (KdCache.getOrCompute wordHash dragModels_ k
        (KdCache.getOrCompute wordHash dragModels_ k c).2).2.evaluations
          = c.evaluations + 1) := by
  cases hfind : c.Kds_.find wordHash k with
  | some Kd =>
    have h1 : KdCache.getOrCompute wordHash dragModels_ k c = (some Kd, c) := by
      simp [KdCache.getOrCompute, hfind]
    rw [h1]
    simp only [h1]
    exact ⟨trivial, trivial, trivial, Nat.le_succ _, fun _ h => by simp at h⟩
  | none =>
    cases hmodel : dragModels_.find wordHash k with
    | none =>
      have h1 : KdCache.getOrCompute wordHash dragModels_ k c = (none, c) := by
        simp [KdCache.getOrCompute, hfind, hmodel]
      rw [h1]
      simp only [h1]
      exact ⟨trivial, trivial, trivial, Nat.le_succ _, fun _ _ h => by simp at h⟩
    | some model =>
      have h1 : KdCache.getOrCompute wordHash dragModels_ k c
          = (some model.K, { Kds_ := c.Kds_.insert wordHash k model.K,
                             evaluations := c.evaluations + 1 }) := by
        simp [KdCache.getOrCompute, hfind, hmodel]
      have h2 : KdCache.getOrCompute wordHash dragModels_ k
            { Kds_ := c.Kds_.insert wordHash k model.K, evaluations := c.evaluations + 1 }
          = (some model.K, { Kds_ := c.Kds_.insert wordHash k model.K,
                             evaluations := c.evaluations + 1 }) := by
        simp [KdCache.getOrCompute, HashPtrTable.find_insert]
      rw [h1]
      simp only [h2]
      refine ⟨trivial, trivial, trivial, le_rfl, fun model2 _ h => ?_⟩
      simp only [Option.some.injEq] at h
      rw [h]
      exact ⟨rfl, trivial⟩

/-! ## Devolatilisation with the "none" model -/

/-- Counterexample for C10: with the "none" devolatilisation model and a
combustion flag of 0 on entry, calcDevolatilisation returns without error but
with the combustion flag changed to 1. -/
theorem calcDevolatilisation_changes_canCombust :
    exampleCloudNoDevolatilisation.devolatilisation.isNoDevolatilisation = true ∧
    exampleDevolatilisationArgs.canCombust = 0 ∧
    ∃ out, calcDevolatilisation exampleFunctions exampleCloudNoDevolatilisation exampleParcel
        exampleTrackingData 1 300 (1 / 1000) 300 1 1 [1 / 2] [1 / 4] [1 / 4]
        exampleDevolatilisationArgs = .ok out ∧
      out.canCombust = 1 ∧ out.canCombust ≠ exampleDevolatilisationArgs.canCombust :=
  ⟨rfl, rfl, { exampleDevolatilisationArgs with canCombust := 1 }, rfl, rfl, by decide⟩

/-- Claim C10 (amended): with the "none" devolatilisation model
calcDevolatilisation raises no error for any input, also when the
demand-driven constants are missing; dMassDV, Sh, N, NCpW and Cs (and the mass
accumulated in the model) have the same values after the call as before;
canCombust keeps its value when that is -1 or 1 and is set to 1 otherwise. -/
theorem calcDevolatilisation_none (fn : externalFunctions) (cloud : ReactingMultiphaseCloud)
    (parcel : ReactingMultiphaseParcel) (td : trackingData)
    (dt Ts d T mass mass0 : ℚ) (YGasEff YLiquidEff YSolidEff : List ℚ)
    (io : devolatilisationArgs)
    (hnone : cloud.devolatilisation.isNoDevolatilisation = true) :
    ∃ out, calcDevolatilisation fn cloud parcel td dt Ts d T mass mass0
        YGasEff YLiquidEff YSolidEff io = .ok out ∧
      out.dMassDV = io.dMassDV ∧ out.Sh = io.Sh ∧ out.N = io.N ∧ out.NCpW = io.NCpW ∧
      out.Cs = io.Cs ∧ out.devolatilisationMass = io.devolatilisationMass ∧
      (io.canCombust = -1 ∨ io.canCombust = 1 → out.canCombust = io.canCombust) ∧
      (io.canCombust ≠ -1 → out.canCombust = 1) := by
  by_cases hc : io.canCombust = -1
  · refine ⟨io, ?_, rfl, rfl, rfl, rfl, rfl, rfl, fun _ => rfl, fun h => absurd hc h⟩
    simp [calcDevolatilisation, hnone, hc]
  · refine ⟨{ io with canCombust := 1 }, ?_, rfl, rfl, rfl, rfl, rfl, rfl, ?_, fun _ => rfl⟩
    · simp [calcDevolatilisation, hnone, hc]
    · rintro (h | h)
      · exact absurd h hc
      · exact h.symm

/-- Witness for C10 (amended): the example cloud has the "none" model and no
`TDevol`/`LDevol` entries. -/
theorem calcDevolatilisation_none_witness :
    ∃ out, calcDevolatilisation exampleFunctions exampleCloudNoDevolatilisation exampleParcel
        exampleTrackingData 1 300 (1 / 1000) 300 1 1 [1 / 2] [1 / 4] [1 / 4]
        exampleDevolatilisationArgs = .ok out ∧
      out.dMassDV = exampleDevolatilisationArgs.dMassDV ∧
      out.Sh = exampleDevolatilisationArgs.Sh ∧ out.N = exampleDevolatilisationArgs.N ∧
      out.NCpW = exampleDevolatilisationArgs.NCpW ∧
      out.Cs = exampleDevolatilisationArgs.Cs ∧
      out.devolatilisationMass = exampleDevolatilisationArgs.devolatilisationMass ∧
      (exampleDevolatilisationArgs.canCombust = -1 ∨ exampleDevolatilisationArgs.canCombust = 1 →
        out.canCombust = exampleDevolatilisationArgs.canCombust) ∧
      (exampleDevolatilisationArgs.canCombust ≠ -1 → out.canCombust = 1) :=
  calcDevolatilisation_none exampleFunctions exampleCloudNoDevolatilisation exampleParcel
    exampleTrackingData 1 300 (1 / 1000) 300 1 1 [1 / 2] [1 / 4] [1 / 4]
    exampleDevolatilisationArgs rfl

/-! ## The unimplemented operations of the stationary mesh stitcher -/

/-- Claim C12: each of the three mesh-flux correction operations of the
stationary mesh stitcher fails with the not-implemented error for every input;
none returns normally and each leaves its arguments as they were passed. -/
theorem stationary_stitcher_not_implemented :
    (∀ phi : GeometricField ℚ,
      (conformCorrectMeshPhi phi).1 = .error "Not implemented" ∧
      (∀ u, (conformCorrectMeshPhi phi).1 ≠ .ok u) ∧ (conformCorrectMeshPhi phi).2 = phi) ∧
    (∀ (polyFacesBf : List (PatchField ℤ)) (SfSf CfSf : GeometricField (ℚ × ℚ × ℚ)),
      (createNonConformalCorrectMeshPhiGeometry polyFacesBf SfSf CfSf).1
        = .error "Not implemented" ∧
      (∀ u, (createNonConformalCorrectMeshPhiGeometry polyFacesBf SfSf CfSf).1 ≠ .ok u) ∧
      (createNonConformalCorrectMeshPhiGeometry polyFacesBf SfSf CfSf).2
        = (polyFacesBf, SfSf, CfSf)) ∧
    (∀ (polyFacesBf : List (PatchField ℤ)) (SfSf CfSf : GeometricField (ℚ × ℚ × ℚ))
        (phi : GeometricField ℚ),
      (unconformCorrectMeshPhi polyFacesBf SfSf CfSf phi).1 = .error "Not implemented" ∧
      (∀ u, (unconformCorrectMeshPhi polyFacesBf SfSf CfSf phi).1 ≠ .ok u) ∧
      (unconformCorrectMeshPhi polyFacesBf SfSf CfSf phi).2 = (SfSf, CfSf, phi)) := by
  refine ⟨fun phi => ⟨rfl, fun u h => ?_, rfl⟩, fun b s c => ⟨rfl, fun u h => ?_, rfl⟩,
    fun b s c phi => ⟨rfl, fun u h => ?_, rfl⟩⟩ <;>
  · simp [conformCorrectMeshPhi, createNonConformalCorrectMeshPhiGeometry,
      unconformCorrectMeshPhi, NotImplemented] at h

/-! ## The divisor of the Herschel-Bulkley viscosity -/

/-- Claim C13: for every strain rate, zero and negative values included, the
divisor used by HerschelBulkley::nu is max(strainRate, rootVSmall); it is at
least rootVSmall and positive, so the quotient is a true quotient and nu has a
value in every cell for which both fields have one. -/
theorem HerschelBulkley_nu_divisor (pow : ℚ → ℚ → ℚ) (rootVSmall : ℚ)
    (hpos : 0 < rootVSmall) (model : HerschelBulkley) :
    (∀ strainRate : ℚ,
      rootVSmall ≤ max strainRate rootVSmall ∧ 0 < max strainRate rootVSmall) ∧
    (∀ nu0 strainRate : ℚ,
      model.nuCell pow rootVSmall nu0 strainRate
        = min nu0 ((model.tau0_ + model.k_ * pow strainRate model.n_)
            / max strainRate rootVSmall) ∧
      (model.tau0_ + model.k_ * pow strainRate model.n_) / max strainRate rootVSmall
        * max strainRate rootVSmall = model.tau0_ + model.k_ * pow strainRate model.n_) ∧
    (∀ nu0 strainRate : List ℚ,
      (model.nu pow rootVSmall nu0 strainRate).length = min nu0.length strainRate.length ∧
      ∀ (i : Nat) (a b : ℚ), nu0[i]? = some a → strainRate[i]? = some b →
        (model.nu pow rootVSmall nu0 strainRate)[i]?
          = some (model.nuCell pow rootVSmall a b)) := by
  have hD : ∀ strainRate : ℚ, 0 < max strainRate rootVSmall := fun sr =>
    lt_of_lt_of_le hpos (le_max_right _ _)
  refine ⟨fun sr => ⟨le_max_right _ _, hD sr⟩, fun nu0 sr => ⟨rfl, ?_⟩, fun nu0 sr => ⟨?_, ?_⟩⟩
  · exact div_mul_cancel₀ _ (ne_of_gt (hD sr))
  · simp [HerschelBulkley.nu]
  · intro i a b ha hb
    simp [HerschelBulkley.nu, List.getElem?_zipWith, ha, hb]

/-- Witness for C13: the floor 1e-150 and a fluid with n = 1, k = 2,
tau0 = 3; at strain rates 0 and -1 the divisor is positive. -/
theorem HerschelBulkley_nu_divisor_witness :
    (0 : ℚ) < 1 / 10 ^ 150 ∧
    (0 : ℚ) < max 0 (1 / 10 ^ 150) ∧ (0 : ℚ) < max (-1) (1 / 10 ^ 150) ∧
    (exampleHerschelBulkley.nu (fun x _ => x) (1 / 10 ^ 150) [5, 5] [0, -1])[1]?
      = some (exampleHerschelBulkley.nuCell (fun x _ => x) (1 / 10 ^ 150) 5 (-1)) :=
  ⟨by positivity,
    ((HerschelBulkley_nu_divisor (fun x _ => x) (1 / 10 ^ 150) (by positivity)
      exampleHerschelBulkley).1 0).2,
    ((HerschelBulkley_nu_divisor (fun x _ => x) (1 / 10 ^ 150) (by positivity)
      exampleHerschelBulkley).1 (-1)).2,
    ((HerschelBulkley_nu_divisor (fun x _ => x) (1 / 10 ^ 150) (by positivity)
      exampleHerschelBulkley).2.2 [5, 5] [0, -1]).2 1 5 (-1) rfl rfl⟩

/-! ## Surface reactions and devolatilisation: the paths that skip the model -/

/-- Claim C11: with the "none" surface-reaction model calcSurfaceReactions
raises no error, also when the demand-driven constants are missing, and
dMassSRGas, dMassSRLiquid, dMassSRSolid, dMassSRCarrier, Sh and dhsTrans (and
the mass accumulated in the model) have the same values after the call as
before, for every input and every value of canCombust. -/
theorem calcSurfaceReactions_none (cloud : TrackCloudType) (parcel : ReactingMultiphaseParcel)
    (td : trackingData) (dt d T mass : ℚ) (canCombust : ℤ) (N : ℚ)
    (YMix YGas YLiquid YSolid : List ℚ) (io : surfaceReactionArgs)
    (hnone : cloud.surfaceReaction.isNoSurfaceReaction = true) :
    calcSurfaceReactions cloud parcel td dt d T mass canCombust N YMix YGas YLiquid YSolid io
      = .ok io := by
  simp [calcSurfaceReactions, hnone]

/-- Witness for C11: the example cloud with the "none" model has neither
`hRetentionCoeff` nor `TMax`; the combustion flag is 1. -/
theorem calcSurfaceReactions_none_witness :
    calcSurfaceReactions (exampleCloud true false 0) exampleParcel exampleTrackingData
        1 (1 / 1000) 300 1 1 0 [1 / 2, 1 / 4, 1 / 4] [1] [1] [1] exampleSurfaceReactionArgs
      = .ok exampleSurfaceReactionArgs :=
  calcSurfaceReactions_none (exampleCloud true false 0) exampleParcel exampleTrackingData
    1 (1 / 1000) 300 1 1 0 [1 / 2, 1 / 4, 1 / 4] [1] [1] [1] exampleSurfaceReactionArgs rfl

/-- Counterexample for C16: with an active devolatilisation model, T = 300
below TDevol = 400 and no LDevol entry in the dictionary, calcDevolatilisation
does not return: reading the demand-driven constant LDevol, which comes
before the check, raises the lookup error. The same happens with canCombust =
-1 when the TDevol entry is missing. -/
theorem calcDevolatilisation_missing_constant :
    exampleCloudMissingLDevol.devolatilisation.isNoDevolatilisation = false ∧
    exampleCloudMissingLDevol.constProps.TDevol = .ok 400 ∧
    (300 : ℚ) < 400 ∧
    calcDevolatilisation exampleFunctions exampleCloudMissingLDevol exampleParcel
        exampleTrackingData 1 300 (1 / 1000) 300 1 1 [1 / 2] [1 / 4] [1 / 4]
        exampleDevolatilisationArgs = .error "LDevol not found" ∧
    exampleCloudMissingTDevol.devolatilisation.isNoDevolatilisation = false ∧
    ({ exampleDevolatilisationArgs with canCombust := -1 } : devolatilisationArgs).canCombust
      = -1 ∧
    calcDevolatilisation exampleFunctions exampleCloudMissingTDevol exampleParcel
        exampleTrackingData 1 300 (1 / 1000) 300 1 1 [1 / 2] [1 / 4] [1 / 4]
        { exampleDevolatilisationArgs with canCombust := -1 } = .error "TDevol not found" :=
  ⟨rfl, rfl, by norm_num, rfl, rfl, rfl, rfl⟩

/-- Claim C16 (amended): with an active devolatilisation model whose constants TDevol
and LDevol are set, if T is below TDevol or canCombust is -1,
calcDevolatilisation returns with canCombust, dMassDV, Sh, N, NCpW and Cs (and
the mass accumulated in the model) unchanged, and it does so whatever the
`calculate` function of the model is: the model is not invoked. -/
theorem calcDevolatilisation_below_TDevol (fn : externalFunctions)
    (cloud : ReactingMultiphaseCloud) (parcel : ReactingMultiphaseParcel) (td : trackingData)
    (dt Ts d T mass mass0 : ℚ) (YGasEff YLiquidEff YSolidEff : List ℚ)
    (io : devolatilisationArgs) (TDevol LDevol : ℚ)
    (hactive : cloud.devolatilisation.isNoDevolatilisation = false)
    (hTDevol : cloud.constProps.TDevol = .ok TDevol)
    (hLDevol : cloud.constProps.LDevol = .ok LDevol)
    (hcond : T < TDevol ∨ io.canCombust = -1) :
    calcDevolatilisation fn cloud parcel td dt Ts d T mass mass0
        YGasEff YLiquidEff YSolidEff io = .ok io ∧
    ∀ calculate,
      calcDevolatilisation fn
        { cloud with devolatilisation := { cloud.devolatilisation with calculate := calculate } }
        parcel td dt Ts d T mass mass0 YGasEff YLiquidEff YSolidEff io = .ok io := by
  have key : ∀ c : ReactingMultiphaseCloud, c.devolatilisation.isNoDevolatilisation = false →
      c.constProps.TDevol = .ok TDevol → c.constProps.LDevol = .ok LDevol →
      calcDevolatilisation fn c parcel td dt Ts d T mass mass0
        YGasEff YLiquidEff YSolidEff io = .ok io := by
    intro c h1 h2 h3
    simp only [calcDevolatilisation, h1, h2, h3]
    simp [bind, Except.bind, pure, Except.pure, hcond]
  exact ⟨key cloud hactive hTDevol hLDevol, fun calculate => key _ hactive hTDevol hLDevol⟩

/-- Witness for C16: the example cloud has an active devolatilisation model
with TDevol = 400 whose `calculate` would fail; the parcel temperature is
300. -/
theorem calcDevolatilisation_below_TDevol_witness :
    calcDevolatilisation exampleFunctions (exampleCloud true false 0).toReactingMultiphaseCloud
        exampleParcel exampleTrackingData 1 300 (1 / 1000) 300 1 1 [1 / 2] [1 / 4] [1 / 4]
        exampleDevolatilisationArgs = .ok exampleDevolatilisationArgs :=
  (calcDevolatilisation_below_TDevol exampleFunctions
    (exampleCloud true false 0).toReactingMultiphaseCloud
    exampleParcel exampleTrackingData 1 300 (1 / 1000) 300 1 1 [1 / 2] [1 / 4] [1 / 4]
    exampleDevolatilisationArgs 400 0 rfl rfl rfl (Or.inl (by norm_num))).1

/-- Counterexample for C17: with an active surface-reaction model, canCombust
= 0 and no TMax entry in the dictionary, calcSurfaceReactions does not return:
reading the demand-driven constant TMax, which comes before the check of
canCombust, raises the lookup error. The same happens when the hRetentionCoeff
entry is missing. -/
theorem calcSurfaceReactions_missing_constant :
    exampleCloudMissingTMax.surfaceReaction.isNoSurfaceReaction = false ∧
    (0 : ℤ) ≠ 1 ∧
    calcSurfaceReactions exampleCloudMissingTMax exampleParcel exampleTrackingData
        1 (1 / 1000) 300 1 0 0 [1 / 2, 1 / 4, 1 / 4] [1] [1] [1] exampleSurfaceReactionArgs
      = .error "TMax not found" ∧
    exampleCloudMissingHRetentionCoeff.surfaceReaction.isNoSurfaceReaction = false ∧
    calcSurfaceReactions exampleCloudMissingHRetentionCoeff exampleParcel exampleTrackingData
        1 (1 / 1000) 300 1 0 0 [1 / 2, 1 / 4, 1 / 4] [1] [1] [1] exampleSurfaceReactionArgs
      = .error "hRetentionCoeff not found" :=
  ⟨rfl, by decide, rfl, rfl, rfl⟩

/-- Claim C17 (amended): with an active surface-reaction model whose constants
hRetentionCoeff and TMax are set, if canCombust is not 1, calcSurfaceReactions
returns with dMassSRGas, dMassSRLiquid, dMassSRSolid, dMassSRCarrier, Sh and
dhsTrans (and the mass accumulated in the model) unchanged, and it does so
whatever the `calculate` function of the model is: the model is not invoked. -/
theorem calcSurfaceReactions_cannot_combust (cloud : TrackCloudType)
    (parcel : ReactingMultiphaseParcel) (td : trackingData) (dt d T mass : ℚ)
    (canCombust : ℤ) (N : ℚ) (YMix YGas YLiquid YSolid : List ℚ) (io : surfaceReactionArgs)
    (hRetentionCoeff TMax : ℚ)
    (hactive : cloud.surfaceReaction.isNoSurfaceReaction = false)
    (hRet : cloud.hRetentionCoeff = .ok hRetentionCoeff)
    (hTMax : cloud.TMax = .ok TMax)
    (hcond : canCombust ≠ 1) :
    calcSurfaceReactions cloud parcel td dt d T mass canCombust N YMix YGas YLiquid YSolid io
      = .ok io ∧
    ∀ calculate,
      calcSurfaceReactions
        { cloud with surfaceReaction := { cloud.surfaceReaction with calculate := calculate } }
        parcel td dt d T mass canCombust N YMix YGas YLiquid YSolid io = .ok io := by
  have key : ∀ c : TrackCloudType, c.surfaceReaction.isNoSurfaceReaction = false →
      c.hRetentionCoeff = .ok hRetentionCoeff → c.TMax = .ok TMax →
      calcSurfaceReactions c parcel td dt d T mass canCombust N YMix YGas YLiquid YSolid io
        = .ok io := by
    intro c h1 h2 h3
    simp only [calcSurfaceReactions, h1, h2, h3]
    simp [bind, Except.bind, pure, Except.pure, hcond]
  exact ⟨key cloud hactive hRet hTMax, fun calculate => key _ hactive hRet hTMax⟩

/-- Witness for C17: the example cloud with an active surface-reaction model
whose `calculate` would fail; the combustion flag is 0. -/
theorem calcSurfaceReactions_cannot_combust_witness :
    calcSurfaceReactions (exampleCloud false false 0) exampleParcel exampleTrackingData
        1 (1 / 1000) 300 1 0 0 [1 / 2, 1 / 4, 1 / 4] [1] [1] [1] exampleSurfaceReactionArgs
      = .ok exampleSurfaceReactionArgs :=
  (calcSurfaceReactions_cannot_combust (exampleCloud false false 0) exampleParcel
    exampleTrackingData 1 (1 / 1000) 300 1 0 0 [1 / 2, 1 / 4, 1 / 4] [1] [1] [1]
    exampleSurfaceReactionArgs (1 / 2) 1000 rfl rfl rfl (by decide)).1

/-! ## Lemmas on scalar fields and loops -/

theorem fieldAt_set_self {Y : List ℚ} {i : Nat} (h : i < Y.length) (a : ℚ) :
    fieldAt (Y.set i a) i = a := by
  simp [fieldAt, List.getD_eq_getElem?_getD, List.getElem?_set_self h]

theorem fieldAt_set_ne {Y : List ℚ} {i j : Nat} (h : i ≠ j) (a : ℚ) :
    fieldAt (Y.set i a) j = fieldAt Y j := by
  simp [fieldAt, List.getD_eq_getElem?_getD, List.getElem?_set_ne h]

theorem forAllIndices_succ {σ : Type} (n : Nat) (init : σ) (body : σ → Nat → σ) :
    forAllIndices (n + 1) init body = body (forAllIndices n init body) n := by
  simp [forAllIndices, List.range_succ, List.foldl_append]

theorem addToRhoTrans_apply (rhoTrans : Nat → Nat → ℚ) (gid cell : Nat) (x : ℚ) (g c : Nat) :
    addToRhoTrans rhoTrans gid cell x g c
      = rhoTrans g c + (if g = gid ∧ c = cell then x else 0) := by
  unfold addToRhoTrans addAt
  by_cases hg : g = gid
  · subst hg
    by_cases hc : c = cell
    · subst hc
      simp
    · simp [hc]
  · simp [hg]

theorem addAt_apply {α : Type} [AddZeroClass α] (field : Nat → α) (cell : Nat) (x : α)
    (c : Nat) : addAt field cell x c = if c = cell then field c + x else field c := by
  unfold addAt
  by_cases hc : c = cell
  · subst hc
    simp
  · simp [hc]

theorem forAllIndices_addToRhoTrans (n : Nat) (rhoTrans : Nat → Nat → ℚ) (gid : Nat → Nat)
    (cell : Nat) (f : Nat → ℚ) (g c : Nat) :
    forAllIndices n rhoTrans (fun r i => addToRhoTrans r (gid i) cell (f i)) g c
      = rhoTrans g c
        + (if c = cell then ∑ i ∈ (Finset.range n).filter (fun i => gid i = g), f i else 0) := by
  induction n with
  | zero => simp [forAllIndices]
  | succ n ih =>
    rw [forAllIndices_succ, addToRhoTrans_apply, ih, Finset.range_succ, Finset.filter_insert]
    by_cases hc : c = cell
    · by_cases hg : gid n = g
      · have hnot : n ∉ (Finset.range n).filter (fun i => gid i = g) := by simp
        simp only [hc, hg, if_true, and_self, Finset.sum_insert hnot]
        ring
      · have hg2 : ¬ g = gid n := fun e => hg e.symm
        simp [hc, hg, hg2]
    · simp [hc]

/-! ## Lemmas on `calc` -/

theorem updateMassFractions_frame (pf : parcelFunctions) (mass0 : ℚ)
    (dMassGas dMassLiquid dMassSolid : List ℚ) (idG idL idS : Nat)
    (parcel : ReactingMultiphaseParcel) :
    (updateMassFractions pf mass0 dMassGas dMassLiquid dMassSolid idG idL idS parcel).2.T_
      = parcel.T_ ∧
    (updateMassFractions pf mass0 dMassGas dMassLiquid dMassSolid idG idL idS parcel).2.U_
      = parcel.U_ ∧
    (updateMassFractions pf mass0 dMassGas dMassLiquid dMassSolid idG idL idS parcel).2.cell
      = parcel.cell ∧
    (updateMassFractions pf mass0 dMassGas dMassLiquid dMassSolid idG idL idS parcel).2.nParticle_
      = parcel.nParticle_ :=
  ⟨rfl, rfl, rfl, rfl⟩

theorem updateDensityOrDiameter_frame (fn : externalFunctions) (pf : parcelFunctions)
    (cloud : TrackCloudType) (mass1 : ℚ) (parcel : ReactingMultiphaseParcel) :
    (updateDensityOrDiameter fn pf cloud mass1 parcel).T_ = parcel.T_ ∧
    (updateDensityOrDiameter fn pf cloud mass1 parcel).U_ = parcel.U_ ∧
    (updateDensityOrDiameter fn pf cloud mass1 parcel).cell = parcel.cell ∧
    (updateDensityOrDiameter fn pf cloud mass1 parcel).Y_ = parcel.Y_ ∧
    (updateDensityOrDiameter fn pf cloud mass1 parcel).YGas_ = parcel.YGas_ ∧
    (updateDensityOrDiameter fn pf cloud mass1 parcel).YLiquid_ = parcel.YLiquid_ := by
  unfold updateDensityOrDiameter
  split <;> exact ⟨rfl, rfl, rfl, rfl, rfl, rfl⟩

theorem calcMassTransfer_frame (fn : externalFunctions) (pf : parcelFunctions)
    (cloud : TrackCloudType) (td : trackingData) (Uc : vector) (dt : ℚ) (s : calcState)
    (m : massTransferResult) (hm : calcMassTransfer fn pf cloud td Uc dt s = .ok m) :
    m.parcel.T_ = s.parcel.T_ ∧ m.parcel.U_ = s.parcel.U_ ∧ m.parcel.cell = s.parcel.cell ∧
    m.sources.rhoTrans = s.sources.rhoTrans ∧ m.sources.UTrans = s.sources.UTrans ∧
    m.sources.hsTrans = s.sources.hsTrans := by
  unfold calcMassTransfer at hm
  simp only [bind, Except.bind, pure, Except.pure] at hm
  split at hm
  · exact absurd hm (by simp)
  · split at hm
    · exact absurd hm (by simp)
    · simp only [Except.ok.injEq] at hm
      subst hm
      refine ⟨?_, ?_, ?_, rfl, rfl, rfl⟩
      · exact (updateDensityOrDiameter_frame _ _ _ _ _).1
      · exact (updateDensityOrDiameter_frame _ _ _ _ _).2.1
      · exact (updateDensityOrDiameter_frame _ _ _ _ _).2.2.1

theorem calcMassTransfer_updateMassFractions (fn : externalFunctions) (pf : parcelFunctions)
    (cloud : TrackCloudType) (td : trackingData) (Uc : vector) (dt : ℚ) (s : calcState)
    (m : massTransferResult) (hm : calcMassTransfer fn pf cloud td Uc dt s = .ok m) :
    ∃ dMassGas dMassLiquid dMassSolid parcelDV,
      m.mass1 = (updateMassFractions pf (pf.mass s.parcel) dMassGas dMassLiquid dMassSolid
        cloud.composition.idGas cloud.idLiquid cloud.idSolid parcelDV).1 ∧
      m.parcel.Y_ = (updateMassFractions pf (pf.mass s.parcel) dMassGas dMassLiquid dMassSolid
        cloud.composition.idGas cloud.idLiquid cloud.idSolid parcelDV).2.Y_ ∧
      m.parcel.YGas_ = (updateMassFractions pf (pf.mass s.parcel) dMassGas dMassLiquid
        dMassSolid cloud.composition.idGas cloud.idLiquid cloud.idSolid parcelDV).2.YGas_ ∧
      m.parcel.YLiquid_ = (updateMassFractions pf (pf.mass s.parcel) dMassGas dMassLiquid
        dMassSolid cloud.composition.idGas cloud.idLiquid cloud.idSolid parcelDV).2.YLiquid_ := by
  unfold calcMassTransfer at hm
  simp only [bind, Except.bind, pure, Except.pure] at hm
  split at hm
  · exact absurd hm (by simp)
  · split at hm
    · exact absurd hm (by simp)
    · simp only [Except.ok.injEq] at hm
      subst hm
      refine ⟨_, _, _, _, rfl, ?_, ?_, ?_⟩
      · exact (updateDensityOrDiameter_frame _ _ _ _ _).2.2.2.1
      · exact (updateDensityOrDiameter_frame _ _ _ _ _).2.2.2.2.1
      · exact (updateDensityOrDiameter_frame _ _ _ _ _).2.2.2.2.2

/-! ## Removal of a parcel whose mass falls below the threshold -/

/-- Claim C15: whenever np0*mass1 is below minParcelMass, with np0 the
particle count at entry and mass1 the mass that sections 1 and 2 obtain from
updateMassFractions, calc returns the state of the removal branch: the flag
keepParticle is false and the temperature and velocity of the parcel are those
at entry; the result is the same whatever the functions calcHeatTransfer and
calcVelocity are, so neither is invoked. -/
theorem calc_removes_parcel (fn : externalFunctions) (pf : parcelFunctions)
    (cloud : TrackCloudType) (td : trackingData) (Uc : vector) (dt : ℚ) (s : calcState)
    (m : massTransferResult)
    (hm : calcMassTransfer fn pf cloud td Uc dt s = .ok m)
    (hlt : s.parcel.nParticle_ * m.mass1 < cloud.minParcelMass) :
    (∃ dMassGas dMassLiquid dMassSolid parcelDV,
      m.mass1 = (updateMassFractions pf (pf.mass s.parcel) dMassGas dMassLiquid dMassSolid
        cloud.composition.idGas cloud.idLiquid cloud.idSolid parcelDV).1) ∧
    ∃ out, ReactingMultiphaseParcel.calc fn pf cloud td Uc dt s = .ok out ∧
      out.keepParticle = false ∧ out.parcel.T_ = s.parcel.T_ ∧ out.parcel.U_ = s.parcel.U_ ∧
      ∀ calcHeatTransfer calcVelocity,
        ReactingMultiphaseParcel.calc fn
          { pf with calcHeatTransfer := calcHeatTransfer, calcVelocity := calcVelocity }
          cloud td Uc dt s = .ok out := by
  obtain ⟨dG, dL, dS, pDV, hmass1, -⟩ :=
    calcMassTransfer_updateMassFractions fn pf cloud td Uc dt s m hm
  have hframe := calcMassTransfer_frame fn pf cloud td Uc dt s m hm
  have key : ∀ pf2 : parcelFunctions, pf2.mass = pf.mass →
      calcMassTransfer fn pf2 cloud td Uc dt s = .ok m →
      ReactingMultiphaseParcel.calc fn pf2 cloud td Uc dt s
        = .ok (removeParcel cloud td s.parcel.nParticle_ (pf.mass s.parcel) s.parcel.T_ m) := by
    intro pf2 hmass hm2
    simp only [ReactingMultiphaseParcel.calc, hm2, hmass, bind, Except.bind, pure, Except.pure,
      hlt, if_true]
  refine ⟨⟨dG, dL, dS, pDV, hmass1⟩,
    removeParcel cloud td s.parcel.nParticle_ (pf.mass s.parcel) s.parcel.T_ m,
    key pf rfl hm, rfl, hframe.1, hframe.2.1, fun h v => key _ rfl hm⟩

/-- Witness for C15: a parcel of number 10 and mass 22/21 in a cloud whose
minimum parcel mass is 100; the heat-transfer and velocity functions would
set the temperature to 350 and the velocity to (350, 0, 0). -/
theorem calc_removes_parcel_witness :
    ∃ out, ReactingMultiphaseParcel.calc exampleFunctions (exampleParcelFunctions 350)
        (exampleCloud true false 100) exampleTrackingData (0, 0, 0) 1 exampleCalcState
        = .ok out ∧
      out.keepParticle = false ∧ out.parcel.T_ = 300 ∧ out.parcel.U_ = (3, 0, 0) :=
  let ⟨_, out, h1, h2, h3, h4, _⟩ :=
    calc_removes_parcel exampleFunctions (exampleParcelFunctions 350)
      (exampleCloud true false 100) exampleTrackingData (0, 0, 0) 1 exampleCalcState _ rfl
      (by
        simp [exampleCalcState, exampleParcelMoving, exampleCloud, updateMassFractions,
          exampleParcelFunctions, fieldAt]
        norm_num)
  ⟨out, h1, h2, h3, h4⟩

/-- Claim C19: when calc removes a parcel in a coupled cloud, with
dm = np0*mass0 and YMix, YGas, YLiquid the fractions after updateMassFractions,
the carrier mass sources change in the cell of the parcel only; every gas
component i adds dm*YMix[idG]*YGas[i] and every liquid component i adds
dm*YMix[idL]*YLiquid[i] to the source of the species it is mapped to, nothing
is added for the solid components, and the momentum source of that cell grows
by dm*U0. -/
theorem calc_absorbs_removed_parcel (fn : externalFunctions) (pf : parcelFunctions)
    (cloud : TrackCloudType) (td : trackingData) (Uc : vector) (dt : ℚ) (s : calcState)
    (m : massTransferResult)
    (hm : calcMassTransfer fn pf cloud td Uc dt s = .ok m)
    (hlt : s.parcel.nParticle_ * m.mass1 < cloud.minParcelMass)
    (hcoupled : cloud.coupled = true) :
    (∃ dMassGas dMassLiquid dMassSolid parcelDV,
      m.parcel.Y_ = (updateMassFractions pf (pf.mass s.parcel) dMassGas dMassLiquid dMassSolid
        cloud.composition.idGas cloud.idLiquid cloud.idSolid parcelDV).2.Y_ ∧
      m.parcel.YGas_ = (updateMassFractions pf (pf.mass s.parcel) dMassGas dMassLiquid
        dMassSolid cloud.composition.idGas cloud.idLiquid cloud.idSolid parcelDV).2.YGas_ ∧
      m.parcel.YLiquid_ = (updateMassFractions pf (pf.mass s.parcel) dMassGas dMassLiquid
        dMassSolid cloud.composition.idGas cloud.idLiquid cloud.idSolid parcelDV).2.YLiquid_) ∧
    ∃ out, ReactingMultiphaseParcel.calc fn pf cloud td Uc dt s = .ok out ∧
      (∀ g c, out.sources.rhoTrans g c
        = s.sources.rhoTrans g c
          + (if c = s.parcel.cell then
              ∑ i ∈ (Finset.range m.parcel.YGas_.length).filter
                  (fun i => cloud.composition.localToCarrierId cloud.composition.idGas i = g),
                s.parcel.nParticle_ * pf.mass s.parcel
                  * fieldAt m.parcel.Y_ cloud.composition.idGas * fieldAt m.parcel.YGas_ i
              + ∑ i ∈ (Finset.range m.parcel.YLiquid_.length).filter
                  (fun i => cloud.composition.localToCarrierId cloud.idLiquid i = g),
                s.parcel.nParticle_ * pf.mass s.parcel
                  * fieldAt m.parcel.Y_ cloud.idLiquid * fieldAt m.parcel.YLiquid_ i
            else 0)) ∧
      (∀ c, out.sources.UTrans c
        = if c = s.parcel.cell then
            s.sources.UTrans c + (s.parcel.nParticle_ * pf.mass s.parcel) • s.parcel.U_
          else s.sources.UTrans c) := by
  obtain ⟨hT, hU, hcell, hrho, hUTrans, -⟩ :=
    calcMassTransfer_frame fn pf cloud td Uc dt s m hm
  obtain ⟨dG, dL, dS, pDV, -, hlink⟩ :=
    calcMassTransfer_updateMassFractions fn pf cloud td Uc dt s m hm
  refine ⟨⟨dG, dL, dS, pDV, hlink⟩,
    removeParcel cloud td s.parcel.nParticle_ (pf.mass s.parcel) s.parcel.T_ m, ?_, ?_, ?_⟩
  · simp only [ReactingMultiphaseParcel.calc, hm, bind, Except.bind, pure, Except.pure, hlt,
      if_true]
  · intro g c
    simp only [removeParcel, hcoupled, if_true, absorbParcel]
    rw [forAllIndices_addToRhoTrans, forAllIndices_addToRhoTrans, hrho, hcell]
    by_cases hc : c = s.parcel.cell
    · simp only [hc, if_true]
      ring
    · simp only [hc, if_false]
      ring
  · intro c
    simp only [removeParcel, hcoupled, if_true, absorbParcel]
    rw [addAt_apply, hUTrans, hcell, hU]

/-- Witness for C19: the example parcel (number 10, mass 22/21, velocity
(3, 0, 0), cell 5) is removed in the coupled example cloud, where the gas and
the liquid component are both mapped to species 0. -/
theorem calc_absorbs_removed_parcel_witness :
    ∃ out, ReactingMultiphaseParcel.calc exampleFunctions (exampleParcelFunctions 350)
        (exampleCloud true false 100) exampleTrackingData (0, 0, 0) 1 exampleCalcState
        = .ok out ∧
      out.sources.rhoTrans 0 5 = 55 / 7 ∧ out.sources.rhoTrans 1 5 = 0 ∧
      out.sources.rhoTrans 0 4 = 0 ∧
      out.sources.UTrans 5 = (220 / 7, 0, 0) ∧ out.sources.UTrans 4 = (0, 0, 0) :=
  let ⟨_, out, h1, h2, h3⟩ :=
    calc_absorbs_removed_parcel exampleFunctions (exampleParcelFunctions 350)
      (exampleCloud true false 100) exampleTrackingData (0, 0, 0) 1 exampleCalcState _ rfl
      (by
        simp [exampleCalcState, exampleParcelMoving, exampleCloud, updateMassFractions,
          exampleParcelFunctions, fieldAt]
        norm_num)
      rfl
  ⟨out, h1,
    by
      rw [h2]
      simp [exampleCalcState, exampleParcelMoving, exampleCloud, updateMassFractions,
        updateDensityOrDiameter, exampleParcelFunctions, exampleSources, fieldAt,
        Finset.sum_filter, Finset.sum_range_one]
      norm_num,
    by
      rw [h2]
      simp [exampleCalcState, exampleParcelMoving, exampleCloud, updateMassFractions,
        updateDensityOrDiameter, exampleParcelFunctions, exampleSources, fieldAt,
        Finset.sum_filter, Finset.sum_range_one],
    by
      rw [h2]
      simp [exampleCalcState, exampleParcelMoving, exampleSources],
    by
      rw [h3]
      simp [exampleCalcState, exampleParcelMoving, exampleParcelFunctions, exampleSources]
      norm_num,
    by
      rw [h3]
      simp [exampleCalcState, exampleParcelMoving, exampleSources]⟩

/-! ## Lemmas on `updateMassFractions` -/

theorem updateMassFractions_Y (pf : parcelFunctions) (mass0 : ℚ)
    (dMassGas dMassLiquid dMassSolid : List ℚ) (idG idL idS : Nat)
    (parcel : ReactingMultiphaseParcel) :
    ∃ a b,
      (updateMassFractions pf mass0 dMassGas dMassLiquid dMassSolid idG idL idS parcel).2.Y_
        = ((parcel.Y_.set idG a).set idL b).set idS
            (1.0 - fieldAt ((parcel.Y_.set idG a).set idL b) idG
              - fieldAt ((parcel.Y_.set idG a).set idL b) idL) ∧
      a = (pf.updateMassFraction (mass0 * fieldAt parcel.Y_ idG) dMassGas parcel.YGas_).1
        / (updateMassFractions pf mass0 dMassGas dMassLiquid dMassSolid idG idL idS parcel).1 ∧
      b = (pf.updateMassFraction (mass0 * fieldAt parcel.Y_ idL) dMassLiquid
            parcel.YLiquid_).1
        / (updateMassFractions pf mass0 dMassGas dMassLiquid dMassSolid idG idL idS parcel).1 :=
  ⟨_, _, rfl, rfl, rfl⟩

theorem fieldAt_set_set_set_first {Y : List ℚ} {i j k : Nat} (hi : i < Y.length)
    (hij : i ≠ j) (hik : i ≠ k) (a b c : ℚ) :
    fieldAt (((Y.set i a).set j b).set k c) i = a := by
  rw [fieldAt_set_ne (Ne.symm hik), fieldAt_set_ne (Ne.symm hij), fieldAt_set_self hi]

theorem fieldAt_set_set_set_second {Y : List ℚ} {i j k : Nat} (hj : j < Y.length)
    (hjk : j ≠ k) (a b c : ℚ) :
    fieldAt (((Y.set i a).set j b).set k c) j = b := by
  rw [fieldAt_set_ne (Ne.symm hjk), fieldAt_set_self (by rw [List.length_set]; exact hj)]

theorem fieldAt_set_set_set_third {Y : List ℚ} {i j k : Nat} (hk : k < Y.length)
    (a b c : ℚ) :
    fieldAt (((Y.set i a).set j b).set k c) k = c := by
  rw [fieldAt_set_self (by rw [List.length_set, List.length_set]; exact hk)]

/-! ## Mass fractions, density and diameter -/

/-- Claim C14: updateMassFractions returns max(massGas + massLiquid +
massSolid, rootVSmall), the three masses being those returned by
updateMassFraction for the gas, the liquid and the solid; the returned mass is
at least rootVSmall and positive for every input, and it is the divisor of the
new mixture fractions of the gas and the liquid, which are true quotients also
when all three masses are zero. -/
theorem updateMassFractions_mass (pf : parcelFunctions) (mass0 : ℚ)
    (dMassGas dMassLiquid dMassSolid : List ℚ) (idG idL idS : Nat)
    (parcel : ReactingMultiphaseParcel)
    (hpos : 0 < pf.rootVSmall)
    (hG : idG < parcel.Y_.length) (hL : idL < parcel.Y_.length)
    (hGL : idG ≠ idL) (hGS : idG ≠ idS) (hLS : idL ≠ idS) :
    (updateMassFractions pf mass0 dMassGas dMassLiquid dMassSolid idG idL idS parcel).1
      = max ((pf.updateMassFraction (mass0 * fieldAt parcel.Y_ idG) dMassGas parcel.YGas_).1
          + (pf.updateMassFraction (mass0 * fieldAt parcel.Y_ idL) dMassLiquid
              parcel.YLiquid_).1
          + (pf.updateMassFraction (mass0 * fieldAt parcel.Y_ idS) dMassSolid
              parcel.YSolid_).1)
        pf.rootVSmall ∧
    pf.rootVSmall
      ≤ (updateMassFractions pf mass0 dMassGas dMassLiquid dMassSolid idG idL idS parcel).1 ∧
    0 < (updateMassFractions pf mass0 dMassGas dMassLiquid dMassSolid idG idL idS parcel).1 ∧
    fieldAt
        (updateMassFractions pf mass0 dMassGas dMassLiquid dMassSolid idG idL idS parcel).2.Y_
        idG
      = (pf.updateMassFraction (mass0 * fieldAt parcel.Y_ idG) dMassGas parcel.YGas_).1
        / (updateMassFractions pf mass0 dMassGas dMassLiquid dMassSolid idG idL idS parcel).1 ∧
    fieldAt
        (updateMassFractions pf mass0 dMassGas dMassLiquid dMassSolid idG idL idS parcel).2.Y_
        idL
      = (pf.updateMassFraction (mass0 * fieldAt parcel.Y_ idL) dMassLiquid
          parcel.YLiquid_).1
        / (updateMassFractions pf mass0 dMassGas dMassLiquid dMassSolid idG idL idS parcel).1 ∧
    (∀ x : ℚ,
      x / (updateMassFractions pf mass0 dMassGas dMassLiquid dMassSolid idG idL idS parcel).1
        * (updateMassFractions pf mass0 dMassGas dMassLiquid dMassSolid idG idL idS parcel).1
        = x) := by
  have hle : pf.rootVSmall
      ≤ (updateMassFractions pf mass0 dMassGas dMassLiquid dMassSolid idG idL idS parcel).1 :=
    le_max_right _ _
  have hne : (updateMassFractions pf mass0 dMassGas dMassLiquid dMassSolid idG idL idS
      parcel).1 ≠ 0 := ne_of_gt (lt_of_lt_of_le hpos hle)
  obtain ⟨a, b, hY, ha, hb⟩ :=
    updateMassFractions_Y pf mass0 dMassGas dMassLiquid dMassSolid idG idL idS parcel
  refine ⟨rfl, hle, lt_of_lt_of_le hpos hle, ?_, ?_, fun x => div_mul_cancel₀ x hne⟩
  · rw [hY, fieldAt_set_set_set_first hG hGL hGS, ha]
  · rw [hY, fieldAt_set_set_set_second hL hLS, hb]

/-- Witness for C14: a parcel whose three phase masses are all zero (mass0 is
0 and nothing is transferred); the returned mass is the floor 1e-150. -/
theorem updateMassFractions_mass_witness :
    (updateMassFractions (exampleParcelFunctions 350) 0 [0] [0] [0] 0 1 2 exampleParcelMoving).1
      = 1 / 10 ^ 150 ∧
    0 < (updateMassFractions (exampleParcelFunctions 350) 0 [0] [0] [0] 0 1 2
      exampleParcelMoving).1 :=
  ⟨by
      rw [(updateMassFractions_mass (exampleParcelFunctions 350) 0 [0] [0] [0] 0 1 2
        exampleParcelMoving (by simp [exampleParcelFunctions]) (by decide) (by decide)
        (by decide) (by decide) (by decide)).1]
      simp [exampleParcelFunctions],
    (updateMassFractions_mass (exampleParcelFunctions 350) 0 [0] [0] [0] 0 1 2
      exampleParcelMoving (by simp [exampleParcelFunctions]) (by decide) (by decide)
      (by decide) (by decide) (by decide)).2.2.1⟩

/-- Claim C20: updateMassFractions keeps the mixture fractions normalised: for
a solid index within the mixture field and different from the gas and the
liquid index, the new fractions of gas, liquid and solid add up to exactly 1,
whatever the masses are, also below the rootVSmall floor. -/
theorem updateMassFractions_normalised (pf : parcelFunctions) (mass0 : ℚ)
    (dMassGas dMassLiquid dMassSolid : List ℚ) (idG idL idS : Nat)
    (parcel : ReactingMultiphaseParcel)
    (hS : idS < parcel.Y_.length) (hGS : idG ≠ idS) (hLS : idL ≠ idS) :
    fieldAt
        (updateMassFractions pf mass0 dMassGas dMassLiquid dMassSolid idG idL idS parcel).2.Y_
        idG
      + fieldAt
        (updateMassFractions pf mass0 dMassGas dMassLiquid dMassSolid idG idL idS parcel).2.Y_
        idL
      + fieldAt
        (updateMassFractions pf mass0 dMassGas dMassLiquid dMassSolid idG idL idS parcel).2.Y_
        idS = 1 := by
  obtain ⟨a, b, hY, -, -⟩ :=
    updateMassFractions_Y pf mass0 dMassGas dMassLiquid dMassSolid idG idL idS parcel
  rw [hY, fieldAt_set_set_set_third hS, fieldAt_set_ne (Ne.symm hGS) (j := idG),
    fieldAt_set_ne (Ne.symm hLS) (j := idL)]
  norm_num

/-- Witness for C20: gas, liquid and solid are the fractions 0, 1 and 2 of the
example parcel, and all three masses are zero. -/
theorem updateMassFractions_normalised_witness :
    fieldAt (updateMassFractions (exampleParcelFunctions 350) 0 [0] [0] [0] 0 1 2
        exampleParcelMoving).2.Y_ 0
      + fieldAt (updateMassFractions (exampleParcelFunctions 350) 0 [0] [0] [0] 0 1 2
        exampleParcelMoving).2.Y_ 1
      + fieldAt (updateMassFractions (exampleParcelFunctions 350) 0 [0] [0] [0] 0 1 2
        exampleParcelMoving).2.Y_ 2 = 1 :=
  updateMassFractions_normalised (exampleParcelFunctions 350) 0 [0] [0] [0] 0 1 2
    exampleParcelMoving (by decide) (by decide) (by decide)

theorem updateMassFractionsRounded_exact (pf : parcelFunctions) (mass0 : ℚ)
    (dMassGas dMassLiquid dMassSolid : List ℚ) (idG idL idS : Nat)
    (parcel : ReactingMultiphaseParcel) :
    updateMassFractionsRounded id pf mass0 dMassGas dMassLiquid dMassSolid idG idL idS parcel
      = updateMassFractions pf mass0 dMassGas dMassLiquid dMassSolid idG idL idS parcel :=
  rfl

/-- Values of the rounding: 1 and 5 are doubles; 1/10 is not; 2^53 + 1 lies
half-way between two doubles and goes to the even significand, 2^53 + 3 goes
up; half the least subnormal number goes to 0. -/
theorem roundToScalar_values :
    roundToScalar 1 = 1 ∧ roundToScalar 5 = 5 ∧
    roundToScalar (1 / 10) = 3602879701896397 / 36028797018963968 ∧
    roundToScalar (2 ^ 53 + 1) = 2 ^ 53 ∧
    roundToScalar (2 ^ 53 + 3) = 2 ^ 53 + 4 ∧
    roundToScalar (1 / 2 ^ 1075) = 0 ∧
    roundToScalar (3 / 2 ^ 1075) = 2 / 2 ^ 1074 := by
  decide!

theorem roundToScalar_four_fifths :
    roundToScalar (4 / 5) = 3602879701896397 / 4503599627370496 := by
  decide!

theorem roundToScalar_one_fifth :
    roundToScalar (1 / 5) = 3602879701896397 / 18014398509481984 := by
  decide!

theorem roundToScalar_complement :
    roundToScalar (1 - 3602879701896397 / 4503599627370496)
      = 1 - 3602879701896397 / 4503599627370496 ∧
    roundToScalar (1 - 3602879701896397 / 4503599627370496 - 3602879701896397 / 18014398509481984)
      = -1 / 18014398509481984 := by
  decide!

/-! ## The new mixture fractions as mass ratios -/

/-- Counterexample for C21: in double arithmetic, the example parcel with
fractions 1/2, 1/4, 1/4 and mass 8, of which the liquid loses 1 and the solid
2: the phase masses are 4, 1 and 0 and their sum 5 is above the floor. The
quotients 4/5 and 1/5 both round up, to 3602879701896397/2^52 and
3602879701896397/2^54, and the complement 1 - YMix[idG] - YMix[idL] is
-1/2^54, not massSolid/massNew = 0. -/
theorem updateMassFractionsRounded_solid_not_ratio :
    ((exampleParcelFunctions 350).updateMassFraction
        (roundToScalar (8 * fieldAt exampleParcelMoving.Y_ 0)) [0]
        exampleParcelMoving.YGas_).1 = 4 ∧
    ((exampleParcelFunctions 350).updateMassFraction
        (roundToScalar (8 * fieldAt exampleParcelMoving.Y_ 1)) [1]
        exampleParcelMoving.YLiquid_).1 = 1 ∧
    ((exampleParcelFunctions 350).updateMassFraction
        (roundToScalar (8 * fieldAt exampleParcelMoving.Y_ 2)) [2]
        exampleParcelMoving.YSolid_).1 = 0 ∧
    (exampleParcelFunctions 350).rootVSmall ≤ roundToScalar (roundToScalar (4 + 1) + 0) ∧
    (updateMassFractionsRounded roundToScalar (exampleParcelFunctions 350) 8 [0] [1] [2] 0 1 2
        exampleParcelMoving).1 = 5 ∧
    fieldAt (updateMassFractionsRounded roundToScalar (exampleParcelFunctions 350) 8 [0] [1] [2]
        0 1 2 exampleParcelMoving).2.Y_ 0 = 3602879701896397 / 4503599627370496 ∧
    fieldAt (updateMassFractionsRounded roundToScalar (exampleParcelFunctions 350) 8 [0] [1] [2]
        0 1 2 exampleParcelMoving).2.Y_ 1 = 3602879701896397 / 18014398509481984 ∧
    fieldAt (updateMassFractionsRounded roundToScalar (exampleParcelFunctions 350) 8 [0] [1] [2]
        0 1 2 exampleParcelMoving).2.Y_ 2 = -1 / 18014398509481984 ∧
    fieldAt (updateMassFractionsRounded roundToScalar (exampleParcelFunctions 350) 8 [0] [1] [2]
        0 1 2 exampleParcelMoving).2.Y_ 2
      ≠ ((exampleParcelFunctions 350).updateMassFraction
            (roundToScalar (8 * fieldAt exampleParcelMoving.Y_ 2)) [2]
            exampleParcelMoving.YSolid_).1
        / (updateMassFractionsRounded roundToScalar (exampleParcelFunctions 350) 8 [0] [1] [2]
            0 1 2 exampleParcelMoving).1 := by
  decide!

/-- Claim C21 (amended): in exact arithmetic, whenever massGas + massLiquid +
massSolid is at least rootVSmall (a positive floor; phase indices distinct and
within the mixture field), updateMassFractions returns that sum and the solid
fraction obtained by complement, 1 - YMix[idG] - YMix[idL], equals
massSolid/massNew: each of the three new fractions is its phase mass divided
by the returned mass. -/
theorem updateMassFractions_ratios (pf : parcelFunctions) (mass0 : ℚ)
    (dMassGas dMassLiquid dMassSolid : List ℚ) (idG idL idS : Nat)
    (parcel : ReactingMultiphaseParcel)
    (hpos : 0 < pf.rootVSmall)
    (hG : idG < parcel.Y_.length) (hL : idL < parcel.Y_.length) (hS : idS < parcel.Y_.length)
    (hGL : idG ≠ idL) (hGS : idG ≠ idS) (hLS : idL ≠ idS)
    (hsum : pf.rootVSmall
      ≤ (pf.updateMassFraction (mass0 * fieldAt parcel.Y_ idG) dMassGas parcel.YGas_).1
        + (pf.updateMassFraction (mass0 * fieldAt parcel.Y_ idL) dMassLiquid parcel.YLiquid_).1
        + (pf.updateMassFraction (mass0 * fieldAt parcel.Y_ idS) dMassSolid
            parcel.YSolid_).1) :
    (updateMassFractions pf mass0 dMassGas dMassLiquid dMassSolid idG idL idS parcel).1
      = (pf.updateMassFraction (mass0 * fieldAt parcel.Y_ idG) dMassGas parcel.YGas_).1
        + (pf.updateMassFraction (mass0 * fieldAt parcel.Y_ idL) dMassLiquid parcel.YLiquid_).1
        + (pf.updateMassFraction (mass0 * fieldAt parcel.Y_ idS) dMassSolid
            parcel.YSolid_).1 ∧
    fieldAt
        (updateMassFractions pf mass0 dMassGas dMassLiquid dMassSolid idG idL idS parcel).2.Y_
        idG
      = (pf.updateMassFraction (mass0 * fieldAt parcel.Y_ idG) dMassGas parcel.YGas_).1
        / (updateMassFractions pf mass0 dMassGas dMassLiquid dMassSolid idG idL idS parcel).1 ∧
    fieldAt
        (updateMassFractions pf mass0 dMassGas dMassLiquid dMassSolid idG idL idS parcel).2.Y_
        idL
      = (pf.updateMassFraction (mass0 * fieldAt parcel.Y_ idL) dMassLiquid
          parcel.YLiquid_).1
        / (updateMassFractions pf mass0 dMassGas dMassLiquid dMassSolid idG idL idS parcel).1 ∧
    fieldAt
        (updateMassFractions pf mass0 dMassGas dMassLiquid dMassSolid idG idL idS parcel).2.Y_
        idS
      = 1 - fieldAt
          (updateMassFractions pf mass0 dMassGas dMassLiquid dMassSolid idG idL idS parcel).2.Y_
          idG
        - fieldAt
          (updateMassFractions pf mass0 dMassGas dMassLiquid dMassSolid idG idL idS parcel).2.Y_
          idL ∧
    fieldAt
        (updateMassFractions pf mass0 dMassGas dMassLiquid dMassSolid idG idL idS parcel).2.Y_
        idS
      = (pf.updateMassFraction (mass0 * fieldAt parcel.Y_ idS) dMassSolid parcel.YSolid_).1
        / (updateMassFractions pf mass0 dMassGas dMassLiquid dMassSolid idG idL idS
            parcel).1 := by
  obtain ⟨a, b, hY, ha, hb⟩ :=
    updateMassFractions_Y pf mass0 dMassGas dMassLiquid dMassSolid idG idL idS parcel
  have hmass : (updateMassFractions pf mass0 dMassGas dMassLiquid dMassSolid idG idL idS
        parcel).1
      = (pf.updateMassFraction (mass0 * fieldAt parcel.Y_ idG) dMassGas parcel.YGas_).1
        + (pf.updateMassFraction (mass0 * fieldAt parcel.Y_ idL) dMassLiquid parcel.YLiquid_).1
        + (pf.updateMassFraction (mass0 * fieldAt parcel.Y_ idS) dMassSolid
            parcel.YSolid_).1 :=
    max_eq_left hsum
  have hne : (updateMassFractions pf mass0 dMassGas dMassLiquid dMassSolid idG idL idS
      parcel).1 ≠ 0 := by
    rw [hmass]
    exact ne_of_gt (lt_of_lt_of_le hpos hsum)
  have hG2 : fieldAt ((parcel.Y_.set idG a).set idL b) idG = a := by
    rw [fieldAt_set_ne (Ne.symm hGL), fieldAt_set_self hG]
  have hL2 : fieldAt ((parcel.Y_.set idG a).set idL b) idL = b :=
    fieldAt_set_self (by rw [List.length_set]; exact hL) b
  rw [hG2, hL2] at hY
  rw [hY, fieldAt_set_set_set_first hG hGL hGS, fieldAt_set_set_set_second hL hLS,
    fieldAt_set_set_set_third hS]
  refine ⟨hmass, ha, hb, by norm_num, ?_⟩
  rw [ha, hb]
  have h1 : (1.0 : ℚ) = 1 := by norm_num
  rw [h1]
  rw [eq_div_iff hne]
  have hm2 : (pf.updateMassFraction (mass0 * fieldAt parcel.Y_ idS) dMassSolid parcel.YSolid_).1
      = (updateMassFractions pf mass0 dMassGas dMassLiquid dMassSolid idG idL idS parcel).1
        - (pf.updateMassFraction (mass0 * fieldAt parcel.Y_ idG) dMassGas parcel.YGas_).1
        - (pf.updateMassFraction (mass0 * fieldAt parcel.Y_ idL) dMassLiquid
            parcel.YLiquid_).1 := by
    rw [hmass]
    ring
  rw [hm2]
  field_simp

/-- Witness for C21 (amended): the example parcel with fractions 1/2, 1/4, 1/4
and mass 8, of which the liquid loses 1 and the solid 2: the phase masses are
4, 1 and 0, far above the floor 1e-150; in exact arithmetic the new solid
fraction is massSolid/massNew. -/
theorem updateMassFractions_ratios_witness :
    fieldAt (updateMassFractions (exampleParcelFunctions 350) 8 [0] [1] [2] 0 1 2
        exampleParcelMoving).2.Y_ 2
      = ((exampleParcelFunctions 350).updateMassFraction
            (8 * fieldAt exampleParcelMoving.Y_ 2) [2] exampleParcelMoving.YSolid_).1
        / (updateMassFractions (exampleParcelFunctions 350) 8 [0] [1] [2] 0 1 2
            exampleParcelMoving).1 :=
  (updateMassFractions_ratios (exampleParcelFunctions 350) 8 [0] [1] [2] 0 1 2
    exampleParcelMoving (by simp [exampleParcelFunctions]) (by decide) (by decide) (by decide)
    (by decide) (by decide) (by decide)
    (by norm_num [exampleParcelFunctions, exampleParcelMoving, fieldAt])).2.2.2.2

/-- Claim C23: with the "none" devolatilisation model calcDevolatilisation
returns its in-out arguments with dMassDV, Sh, N, NCpW and Cs (and the mass
accumulated in the model) unchanged and with the combustion flag -1 if it was
-1 and 1 for every other entry value; and for every cloud, whatever its
model, a call entered with canCombust = -1 that returns, returns all in-out
arguments unchanged: a flag of -1 is never changed and the model is not
invoked. -/
theorem calcDevolatilisation_combustion_flag (fn : externalFunctions)
    (cloud : ReactingMultiphaseCloud) (parcel : ReactingMultiphaseParcel) (td : trackingData)
    (dt Ts d T mass mass0 : ℚ) (YGasEff YLiquidEff YSolidEff : List ℚ)
    (io : devolatilisationArgs)
    (hnone : cloud.devolatilisation.isNoDevolatilisation = true) :
    calcDevolatilisation fn cloud parcel td dt Ts d T mass mass0
        YGasEff YLiquidEff YSolidEff io
      = .ok { io with canCombust := if io.canCombust = -1 then -1 else 1 } ∧
    ∀ (anyCloud : ReactingMultiphaseCloud) (out : devolatilisationArgs),
      io.canCombust = -1 →
      calcDevolatilisation fn anyCloud parcel td dt Ts d T mass mass0
        YGasEff YLiquidEff YSolidEff io = .ok out →
      out = io := by
  constructor
  · by_cases hc : io.canCombust = -1
    · have hio : ({ io with canCombust := -1 } : devolatilisationArgs) = io := by
        cases io
        simp_all
      simp [calcDevolatilisation, hnone, hc, hio]
    · simp [calcDevolatilisation, hnone, hc]
  · intro anyCloud out hc hout
    cases hmodel : anyCloud.devolatilisation.isNoDevolatilisation with
    | true =>
      simp [calcDevolatilisation, hmodel, hc] at hout
      exact hout.symm
    | false =>
      cases hT : anyCloud.constProps.TDevol with
      | error e => simp [calcDevolatilisation, hmodel, hT, bind, Except.bind] at hout
      | ok TDevol =>
        cases hL : anyCloud.constProps.LDevol with
        | error e => simp [calcDevolatilisation, hmodel, hT, hL, bind, Except.bind] at hout
        | ok LDevol =>
          simp [calcDevolatilisation, hmodel, hT, hL, hc, bind, Except.bind, pure,
            Except.pure] at hout
          exact hout.symm

/-- Witness for C23: the example cloud with the "none" model, entered with a
combustion flag of 0, which becomes 1. -/
theorem calcDevolatilisation_combustion_flag_witness :
    calcDevolatilisation exampleFunctions exampleCloudNoDevolatilisation exampleParcel
        exampleTrackingData 1 300 (1 / 1000) 300 1 1 [1 / 2] [1 / 4] [1 / 4]
        exampleDevolatilisationArgs
      = .ok { exampleDevolatilisationArgs with
          canCombust := if exampleDevolatilisationArgs.canCombust = -1 then -1 else 1 } :=
  (calcDevolatilisation_combustion_flag exampleFunctions exampleCloudNoDevolatilisation
    exampleParcel exampleTrackingData 1 300 (1 / 1000) 300 1 1 [1 / 2] [1 / 4] [1 / 4]
    exampleDevolatilisationArgs rfl).1

end Foam
